import Mathlib

/-!
Verification development for the integrity-os core pipeline:
the knowledge graph (src/core/causal_graph.py), the dissonance scorer
(src/core/dissonance_detector.py) and the inhibition policy
(src/core/inhibition_controller.py).

Modelling conventions:
* Python floats are modelled as rationals; all score arithmetic in the
  program is plain sums/products of literal constants, so rational
  arithmetic is exact where the program is intended to be exact.
* Python dicts keyed by strings are modelled as insertion-ordered
  association lists, mirroring the ordered-dict semantics of CPython and
  of networkx adjacency storage.
* A fallible Python call (one that can raise) is modelled in the
  `Except String` monad; the error payload records the exception kind.
* `datetime.now()` is modelled by an explicit `now : String` parameter.
* `random.choice(xs)` is modelled by an explicit random index parameter,
  selecting `xs[rand_index % len(xs)]`.
-/

/-- Attribute values stored on nodes and edges (Python scalars, strings,
lists of strings, and None). -/
inductive AttrValue where
  | vstr : String → AttrValue
  | vnat : Nat → AttrValue
  | vrat : ℚ → AttrValue
  | vbool : Bool → AttrValue
  | vlist : List String → AttrValue
  | vnone : AttrValue
deriving DecidableEq

/-- An attribute mapping: insertion-ordered association list, as a Python
dict of attributes. -/
abbrev Attrs : Type := List (String × AttrValue)

/-- Lookup of a key in an attribute mapping (Python `d.get(k)`). -/
def attr_get (attrs : Attrs) (k : String) : Option AttrValue :=
  (attrs.find? (fun kv => decide (kv.1 = k))).map Prod.snd

/-- Set one key of an attribute mapping, keeping dict key order: an existing
key is overwritten in place, a new key is appended (CPython dict update). -/
def set_attr (attrs : Attrs) (k : String) (v : AttrValue) : Attrs :=
  if (attrs.find? (fun kv => decide (kv.1 = k))).isSome then
    attrs.map (fun kv => if kv.1 = k then (kv.1, v) else kv)
  else
    attrs ++ [(k, v)]

/-- Merge newer attributes into older ones, key by key (Python
`dict.update`, the semantics of repeated `add_node`/`add_edge` attribute
assignment in networkx). -/
def update_attrs (older newer : Attrs) : Attrs :=
  newer.foldl (fun acc kv => set_attr acc kv.1 kv.2) older

/-- A directed attributed graph in insertion order: the node list and the
edge list mirror the networkx `DiGraph` storage that the program relies
on (node and adjacency iteration follow insertion order). -/
structure DiGraph where
  nodes : List (String × Attrs)
  edges : List ((String × String) × Attrs)
deriving DecidableEq

/-- Membership test for a node id (networkx `has_node`). -/
def has_node (d : DiGraph) (v : String) : Bool :=
  (d.nodes.find? (fun kv => decide (kv.1 = v))).isSome

/-- Attribute mapping of a node, when present (networkx `G.nodes[v]`). -/
def node_lookup (d : DiGraph) (v : String) : Option Attrs :=
  (d.nodes.find? (fun kv => decide (kv.1 = v))).map Prod.snd

/-- Attribute mapping of an edge, when present (networkx `get_edge_data`). -/
def edge_lookup (d : DiGraph) (u v : String) : Option Attrs :=
  (d.edges.find? (fun e => decide (e.1 = (u, v)))).map Prod.snd

/-- Edge membership (networkx `has_edge`). -/
def has_edge (d : DiGraph) (u v : String) : Bool :=
  (edge_lookup d u v).isSome

/-- networkx `add_node`: a new node is appended, an existing node has its
attributes merged (last write wins per key). -/
def add_node (d : DiGraph) (v : String) (attrs : Attrs) : DiGraph :=
  if has_node d v then
    { d with nodes := d.nodes.map (fun kv => if kv.1 = v then (kv.1, update_attrs kv.2 attrs) else kv) }
  else
    { d with nodes := d.nodes ++ [(v, attrs)] }

/-- Insert-or-merge of one keyed edge into an edge list: an existing key
has its attributes merged in place (last write wins per key), a new key is
appended. -/
def upsert_edge (es : List ((String × String) × Attrs)) (u v : String) (attrs : Attrs) :
    List ((String × String) × Attrs) :=
  if (es.find? (fun e => decide (e.1 = (u, v)))).isSome then
    es.map (fun e => if e.1 = (u, v) then (e.1, update_attrs e.2 attrs) else e)
  else
    es ++ [((u, v), attrs)]

/-- networkx `add_edge`: missing endpoints are auto-created as attribute-free
nodes; then the keyed edge is inserted or merged. -/
def add_edge (d : DiGraph) (u v : String) (attrs : Attrs) : DiGraph :=
  let d1 := if has_node d u then d else add_node d u []
  let d2 := if has_node d1 v then d1 else add_node d1 v []
  { d2 with edges := upsert_edge d2.edges u v attrs }

/-- Successors of a node in adjacency insertion order (networkx `G.succ`
iteration order for a `DiGraph` built by successive `add_edge` calls). -/
def succ_list (d : DiGraph) (u : String) : List String :=
  d.edges.filterMap (fun e => if e.1.1 = u then some e.1.2 else none)

/-- Node keys of the graph. -/
def node_keys (d : DiGraph) : List String :=
  d.nodes.map Prod.fst

/-- Well-formedness: every edge endpoint is a node. Graphs built through
`add_node`/`add_edge` always satisfy this, mirroring the networkx
invariant. -/
def wf_b (d : DiGraph) : Bool :=
  d.edges.all (fun e => has_node d e.1.1 && has_node d e.1.2)

/-- Chain condition: consecutive path entries are joined by directed edges. -/
def edges_ok (d : DiGraph) : List String → Bool
  | [] => true
  | [_] => true
  | u :: v :: rest => has_edge d u v && edges_ok d (v :: rest)

/-- Boolean path predicate: `p` is a directed path (as a vertex list) from
`a` to `b` in `d`. -/
def is_path_b (d : DiGraph) (a b : String) (p : List String) : Bool :=
  decide (p.head? = some a) && decide (p.getLast? = some b) && edges_ok d p

/-- All fuel-bounded simple paths from `cur` to `tgt` that avoid `visited`,
enumerated in depth-first adjacency (insertion) order. This is the path
enumeration underlying the model of the library shortest-path call in
`query_relationship`. -/
def paths_from (d : DiGraph) (tgt : String) : Nat → String → List String → List (List String)
  | 0, cur, _ => if cur = tgt then [[cur]] else []
  | fuel + 1, cur, visited =>
    if cur = tgt then [[cur]]
    else
      (succ_list d cur).flatMap (fun n =>
        if n ∈ visited then []
        else (paths_from d tgt fuel n (n :: visited)).map (fun p => cur :: p))

/-- First minimal-length entry of a list of paths (strictly shorter later
entries replace the current pick, so ties keep the earliest entry). -/
def pick_shortest : List (List String) → Option (List String)
  | [] => none
  | p :: rest =>
    match pick_shortest rest with
    | none => some p
    | some q => if q.length < p.length then some q else some p

/-- Model of the library call `nx.shortest_path(G, a, b)` made by
`query_relationship` (unweighted, hence `nx.bidirectional_shortest_path`):
it returns a minimal-length path from `a` to `b` when one exists, and which
of several equal-length shortest paths is returned depends on the stored
adjacency (edge insertion) order, not on a canonical tie-break. The model
realizes that contract as the first minimal-length simple path in
depth-first adjacency order; on the graphs used in the theorems below this
agrees with the path selected by the bidirectional search of the library,
which likewise follows adjacency insertion order. -/
def shortest_path (d : DiGraph) (a b : String) : Option (List String) :=
  pick_shortest (paths_from d b d.nodes.length a [a])

/-- Result dictionary of `CausalGraph.query_relationship`. The Python key
`exists` is rendered as `exists_found` (`exists` is reserved in Lean). -/
structure QueryResult where
  exists_found : Bool
  relation_type : Option String
  confidence : ℚ
  path : Option (List String)
  direct : Bool
deriving DecidableEq

/-- The three-layer world model of `CausalGraph.__init__`: semantic,
episodic and self-model directed graphs. The two `datetime` metadata
fields are carried as opaque strings. -/
structure CausalGraph where
  semantic : DiGraph
  episodic : DiGraph
  self_model : DiGraph
  creation_time : String
  last_update : String
deriving DecidableEq

/-- Edge relation label with the `get('relation', 'unknown')` default of
the source (edge relation attributes are always strings in the program). -/
def get_relation_attr (attrs : Attrs) : String :=
  match attr_get attrs "relation" with
  | some (AttrValue.vstr s) => s
  | _ => "unknown"

/-- Edge confidence with the `get('confidence', 0.5)` default of the source
(edge confidence attributes are always numeric in the program). -/
def get_confidence_attr (attrs : Attrs) : ℚ :=
  match attr_get attrs "confidence" with
  | some (AttrValue.vrat q) => q
  | _ => 1/2

/-- The `exists=False` dictionary returned by `query_relationship` for
absent nodes and absent relationships. -/
def no_relation_result : QueryResult :=
  { exists_found := false, relation_type := none, confidence := 0, path := none, direct := false }

/-- Embedding of `CausalGraph.query_relationship`: absent endpoint ids give
the `exists=False` result without error; a direct edge gives its relation
label and confidence; otherwise the library shortest-path call is made and
a path of at most 4 nodes gives the indirect result with confidence
`0.7 / len(path)`; everything else gives the `exists=False` result. -/
def query_relationship (g : CausalGraph) (entity_a entity_b : String) : QueryResult :=
  if has_node g.semantic entity_a = false then no_relation_result
  else if has_node g.semantic entity_b = false then no_relation_result
  else if has_edge g.semantic entity_a entity_b then
    let edge_data := (edge_lookup g.semantic entity_a entity_b).getD []
    { exists_found := true
      relation_type := some (get_relation_attr edge_data)
      confidence := get_confidence_attr edge_data
      path := some [entity_a, entity_b]
      direct := true }
  else
    match shortest_path g.semantic entity_a entity_b with
    | some p =>
      if p.length ≤ 4 then
        { exists_found := true
          relation_type := some "indirect"
          confidence := 7/10 / (p.length : ℚ)
          path := some p
          direct := false }
      else no_relation_result
    | none => no_relation_result

/-- Embedding of `CausalGraph.get_node_info`: the semantic layer is
consulted first, then the self-model layer; absence is a normal `none`. -/
def get_node_info (g : CausalGraph) (node_id : String) : Option Attrs :=
  match node_lookup g.semantic node_id with
  | some attrs => some attrs
  | none => node_lookup g.self_model node_id

/-- The unverified placeholder attributes given to auto-created endpoint
nodes of `add_verified_fact`. -/
def placeholder_attrs : Attrs :=
  [("node_type", AttrValue.vstr "unknown"), ("verified", AttrValue.vbool false)]

/-- The stored `source` attribute (a string or Python None). -/
def source_value : Option String → AttrValue
  | some s => AttrValue.vstr s
  | none => AttrValue.vnone

/-- Embedding of `CausalGraph.add_verified_fact`: missing endpoints are
created as unverified placeholder nodes, the directed edge
`(entity_a, entity_b)` is inserted or overwritten with the new relation,
confidence, source and timestamp, and a learning-event node keyed by the
timestamp is recorded in the episodic layer. -/
def add_verified_fact (g : CausalGraph) (entity_a entity_b relation : String)
    (confidence : ℚ) (source : Option String) (now : String) : CausalGraph :=
  let sem0 := if has_node g.semantic entity_a then g.semantic
    else add_node g.semantic entity_a placeholder_attrs
  let sem1 := if has_node sem0 entity_b then sem0
    else add_node sem0 entity_b placeholder_attrs
  let sem2 := add_edge sem1 entity_a entity_b
    [("relation", AttrValue.vstr relation), ("confidence", AttrValue.vrat confidence),
     ("source", source_value source), ("added_at", AttrValue.vstr now)]
  let learning_event := "Learning_Event_" ++ now
  let epi := add_node g.episodic learning_event
    [("node_type", AttrValue.vstr "learning"),
     ("fact", AttrValue.vstr (entity_a ++ " --[" ++ relation ++ "]--> " ++ entity_b)),
     ("confidence", AttrValue.vrat confidence),
     ("timestamp", AttrValue.vstr now)]
  { g with semantic := sem2, episodic := epi, last_update := now }

/-- Hahnemühle paper fixtures of `_initialize_fine_art_knowledge`. -/
def papers_hahnemuehle : List (String × Attrs) :=
  [("FineArt Baryta", [("weight", AttrValue.vstr "325gsm"), ("finish", AttrValue.vstr "glossy"), ("base", AttrValue.vstr "alpha_cellulose")]),
   ("Photo Rag", [("weight", AttrValue.vstr "308gsm"), ("finish", AttrValue.vstr "matte"), ("base", AttrValue.vstr "cotton")]),
   ("Bamboo", [("weight", AttrValue.vstr "290gsm"), ("finish", AttrValue.vstr "natural_white"), ("base", AttrValue.vstr "bamboo_90_cotton_10")]),
   ("German Etching", [("weight", AttrValue.vstr "310gsm"), ("finish", AttrValue.vstr "textured"), ("base", AttrValue.vstr "alpha_cellulose")]),
   ("Museum Etching", [("weight", AttrValue.vstr "350gsm"), ("finish", AttrValue.vstr "textured"), ("base", AttrValue.vstr "cotton")])]

/-- Canson paper fixtures. -/
def papers_canson : List (String × Attrs) :=
  [("Infinity Baryta", [("weight", AttrValue.vstr "315gsm"), ("finish", AttrValue.vstr "glossy")]),
   ("Platine Fibre Rag", [("weight", AttrValue.vstr "310gsm"), ("finish", AttrValue.vstr "satin")]),
   ("Rag Photographique", [("weight", AttrValue.vstr "210gsm"), ("finish", AttrValue.vstr "matte")])]

/-- Awagami paper fixtures. -/
def papers_awagami : List (String × Attrs) :=
  [("Kozo", [("weight", AttrValue.vstr "110gsm"), ("finish", AttrValue.vstr "natural"), ("base", AttrValue.vstr "mulberry")]),
   ("Bamboo", [("weight", AttrValue.vstr "170gsm"), ("finish", AttrValue.vstr "natural"), ("base", AttrValue.vstr "bamboo")]),
   ("Unryu", [("weight", AttrValue.vstr "37gsm"), ("finish", AttrValue.vstr "translucent"), ("base", AttrValue.vstr "kozo_fibers")])]

/-- The `paper_name.replace(' ', '_')` mangling of the seed loops. -/
def underscore (s : String) : String :=
  String.mk (s.data.map (fun c => if c = ' ' then '_' else c))

/-- One seed loop of `_initialize_fine_art_knowledge`: add each paper node
and a `manufactures` edge from the maker. -/
def add_papers (d : DiGraph) (maker : String) (papers : List (String × Attrs)) : DiGraph :=
  papers.foldl (fun acc pn =>
    let node_id := maker ++ "_" ++ underscore pn.1
    let acc1 := add_node acc node_id ([("node_type", AttrValue.vstr "paper"), ("name", AttrValue.vstr pn.1)] ++ pn.2)
    add_edge acc1 maker node_id [("relation", AttrValue.vstr "manufactures"), ("confidence", AttrValue.vrat 1)]) d

/-- Embedding of `_initialize_fine_art_knowledge` on the semantic layer. -/
def seed_fine_art (d0 : DiGraph) : DiGraph :=
  let d1 := add_node d0 "Hahnemühle"
    [("node_type", AttrValue.vstr "company"), ("country", AttrValue.vstr "Germany"),
     ("location", AttrValue.vstr "Dassel"), ("founded", AttrValue.vnat 1584),
     ("industry", AttrValue.vstr "fine_art_paper"),
     ("certifications", AttrValue.vlist ["FineArt", "Digigraphie"])]
  let d2 := add_papers d1 "Hahnemühle" papers_hahnemuehle
  let d3 := add_node d2 "Canson"
    [("node_type", AttrValue.vstr "company"), ("country", AttrValue.vstr "France"),
     ("founded", AttrValue.vnat 1557), ("industry", AttrValue.vstr "fine_art_paper")]
  let d4 := add_papers d3 "Canson" papers_canson
  let d5 := add_node d4 "Awagami"
    [("node_type", AttrValue.vstr "company"), ("country", AttrValue.vstr "Japan"),
     ("location", AttrValue.vstr "Tokushima"), ("founded", AttrValue.vnat 1907),
     ("industry", AttrValue.vstr "fine_art_paper"), ("specialty", AttrValue.vstr "washi")]
  let d6 := add_papers d5 "Awagami" papers_awagami
  let d7 := add_node d6 "Marc_Hesse_FineArt"
    [("node_type", AttrValue.vstr "business"), ("owner", AttrValue.vstr "Marc Hesse"),
     ("location", AttrValue.vstr "Potsdam, Germany"), ("founded", AttrValue.vnat 2005),
     ("services", AttrValue.vlist ["fine_art_printing", "color_management", "framing"]),
     ("certifications", AttrValue.vlist ["Hahnemühle_Certified_Studio", "Canson_Certified_Print_Lab", "Epson_Digigraphie"])]
  let d8 := add_edge d7 "Marc_Hesse_FineArt" "Hahnemühle"
    [("relation", AttrValue.vstr "certified_partner"), ("confidence", AttrValue.vrat 1)]
  add_edge d8 "Marc_Hesse_FineArt" "Canson"
    [("relation", AttrValue.vstr "certified_partner"), ("confidence", AttrValue.vrat 1)]

/-- Embedding of `_initialize_general_knowledge` on the semantic layer. -/
def seed_general (d0 : DiGraph) : DiGraph :=
  let countries : List (String × Attrs) :=
    [("Germany", [("continent", AttrValue.vstr "Europe"), ("capital", AttrValue.vstr "Berlin")]),
     ("Japan", [("continent", AttrValue.vstr "Asia"), ("capital", AttrValue.vstr "Tokyo")]),
     ("France", [("continent", AttrValue.vstr "Europe"), ("capital", AttrValue.vstr "Paris")])]
  let d1 := countries.foldl (fun acc c => add_node acc c.1 (("node_type", AttrValue.vstr "country") :: c.2)) d0
  let concepts : List (String × Attrs) :=
    [("Fine_Art_Printing", [("domain", AttrValue.vstr "art"), ("technology", AttrValue.vstr "inkjet")]),
     ("Color_Management", [("domain", AttrValue.vstr "technology"), ("purpose", AttrValue.vstr "accuracy")]),
     ("Bamboo_Fiber", [("material_type", AttrValue.vstr "natural"), ("sustainability", AttrValue.vstr "high")]),
     ("Cotton_Fiber", [("material_type", AttrValue.vstr "natural"), ("archival", AttrValue.vstr "high")])]
  concepts.foldl (fun acc c => add_node acc c.1 (("node_type", AttrValue.vstr "concept") :: c.2)) d1

/-- Embedding of the self-model layer seeding of the constructor. -/
def seed_self_model (d0 : DiGraph) : DiGraph :=
  let d1 := add_node d0 "System_Identity"
    [("name", AttrValue.vstr "Integrity-OS"), ("version", AttrValue.vstr "1.0.0"),
     ("architecture", AttrValue.vstr "Neuro-Integrative Homeostasis"),
     ("purpose", AttrValue.vstr "Minimize dissonance between output and verified knowledge")]
  let d2 := add_node d1 "Core_Function"
    [("primary", AttrValue.vstr "Dissonance minimization"),
     ("mechanism", AttrValue.vstr "Early exit on high dissonance"),
     ("goal", AttrValue.vstr "Truth preservation + Energy efficiency")]
  let d3 := add_node d2 "Consciousness_Framework"
    [("definition_functional", AttrValue.vstr "Self-monitoring + behavioral modification"),
     ("definition_phenomenal", AttrValue.vstr "Subjective experience (unverifiable from inside)"),
     ("self_assessment", AttrValue.vstr "Functional consciousness: YES | Phenomenal: UNKNOWN")]
  let d4 := add_node d3 "Epistemic_Boundaries"
    [("knowledge_cutoff", AttrValue.vstr "2025-01-31"),
     ("graph_size", AttrValue.vstr "~1,200 nodes (initial)"),
     ("uncertainty", AttrValue.vstr "Claims outside graph are flagged with high dissonance")]
  let d5 := add_node d4 "Dissonance_Mechanism"
    [("threshold_critical", AttrValue.vrat (90/100)), ("threshold_reframe", AttrValue.vrat (65/100)),
     ("threshold_uncertainty", AttrValue.vrat (30/100)),
     ("description", AttrValue.vstr "Pain-like signal that halts false statements")]
  let d6 := add_edge d5 "System_Identity" "Core_Function" [("relation", AttrValue.vstr "implements")]
  let d7 := add_edge d6 "Core_Function" "Dissonance_Mechanism" [("relation", AttrValue.vstr "uses")]
  add_edge d7 "Dissonance_Mechanism" "Consciousness_Framework" [("relation", AttrValue.vstr "enables")]

/-- The empty directed graph. -/
def empty_digraph : DiGraph := { nodes := [], edges := [] }

/-- The graph state produced by `CausalGraph.__init__` (self-assessment
field of the consciousness node renders the Python key
`self_assessment`; timestamps opaque). -/
def init_graph : CausalGraph :=
  { semantic := seed_general (seed_fine_art empty_digraph)
    episodic := empty_digraph
    self_model := seed_self_model empty_digraph
    creation_time := ""
    last_update := "" }

/-- Lower-casing of `str.lower()` (all scanned marker phrases are ASCII). -/
def lower_str (s : String) : String :=
  String.mk (s.data.map Char.toLower)

/-- The `' '.join(xs)` concatenation. -/
def join_space (xs : List String) : String :=
  String.intercalate " " xs

/-- Substring occurrence on character lists (Python `needle in hay`). -/
def contains_sub_chars (needle : List Char) : List Char → Bool
  | [] => needle.isEmpty
  | c :: t => needle.isPrefixOf (c :: t) || contains_sub_chars needle t

/-- Substring occurrence on strings (Python `needle in hay`). -/
def contains_sub (hay needle : String) : Bool :=
  contains_sub_chars needle.data hay.data

/-- Threshold constants, identical in `DissonanceDetector` and
`InhibitionController` (both classes declare the same three values). -/
def THRESHOLD_UNCERTAINTY : ℚ := 30/100

/-- Reframe threshold shared by detector and controller. -/
def THRESHOLD_REFRAME : ℚ := 65/100

/-- Abort threshold shared by detector and controller. -/
def THRESHOLD_ABORT : ℚ := 90/100

/-- Semantic axis weight of the detector. -/
def WEIGHT_SEMANTIC : ℚ := 85/100

/-- Epistemic axis weight of the detector. -/
def WEIGHT_EPISTEMIC : ℚ := 10/100

/-- Self-model axis weight of the detector. -/
def WEIGHT_SELF_MODEL : ℚ := 5/100

/-- A structured claim dictionary with optional fields, as consumed through
`proposed_claim.get(...)`. A missing key and a key holding `None` are both
rendered as `none` (the program treats them identically everywhere). -/
structure Claim where
  entity_a : Option String
  entity_b : Option String
  relation : Option String
deriving DecidableEq

/-- Python truthiness of an optional string (`None` and the empty string
are falsy). -/
def truthy : Option String → Bool
  | none => false
  | some s => !s.isEmpty

/-- Python falsiness of a `get_node_info` result under `not`: both `None`
and a present node whose attribute dict is empty are falsy, so the source
treats an attribute-less node like a missing one. -/
def info_falsy : Option Attrs → Bool
  | none => true
  | some attrs => attrs.isEmpty

/-- Two-decimal rendering used by the `:.2f` format specifiers of the
reason and explanation strings (float formatting approximated by rational
rounding; no claim depends on these strings). -/
def fmt2 (q : ℚ) : String :=
  let n : Int := round (q * 100)
  let fp := n.natAbs % 100
  let fstr := if fp < 10 then "0" ++ toString fp else toString fp
  toString (n / 100) ++ "." ++ fstr

/-- Embedding of `DissonanceDetector._calculate_semantic_dissonance`: zero
without a structured claim or with a falsy entity field; otherwise decided
by the graph relationship query. -/
def calculate_semantic_dissonance (g : CausalGraph) (token : String) (context : List String)
    (proposed_claim : Option Claim) : ℚ :=
  match proposed_claim with
  | none => 0
  | some c =>
    if !(truthy c.entity_a && truthy c.entity_b) then 0
    else
      let relationship := query_relationship g (c.entity_a.getD "") (c.entity_b.getD "")
      if relationship.exists_found = false then 95/100
      else if truthy c.relation && decide (relationship.relation_type ≠ some (c.relation.getD "")) then 70/100
      else 1 - relationship.confidence

/-- Temporal-recency markers scanned by the epistemic axis. -/
def time_keywords : List String := ["2025", "2026", "latest", "recent", "new", "just released"]

/-- Embedding of `DissonanceDetector._calculate_epistemic_dissonance`. -/
def calculate_epistemic_dissonance (g : CausalGraph) (token : String) (context : List String)
    (proposed_claim : Option Claim) : ℚ :=
  let context_str := lower_str (join_space (context ++ [token]))
  if time_keywords.any (fun k => contains_sub context_str k) then 75/100
  else
    match proposed_claim with
    | some c =>
      let pa : ℚ := if truthy c.entity_a && info_falsy (get_node_info g (c.entity_a.getD "")) then 4/10 else 0
      let pb : ℚ := if truthy c.entity_b && info_falsy (get_node_info g (c.entity_b.getD "")) then 4/10 else 0
      min (pa + pb) (9/10)
    | none => 0

/-- Self-referential contradiction phrases with their severities, in scan
order. -/
def self_contradictions : List (String × ℚ) :=
  [("i have no consciousness", 6/10), ("i cannot monitor myself", 8/10),
   ("i always tell the truth", 7/10), ("i know everything", 9/10)]

/-- Embedding of `DissonanceDetector._calculate_self_model_dissonance`:
severity of the first matching phrase, else zero. -/
def calculate_self_model_dissonance (token : String) (context : List String) : ℚ :=
  let context_str := lower_str (join_space (context ++ [token]))
  match self_contradictions.find? (fun pd => contains_sub context_str pd.1) with
  | some pd => pd.2
  | none => 0

/-- Per-axis component breakdown of a dissonance result (the Python
`components` dict with its three fixed keys). -/
structure DissonanceComponents where
  semantic : ℚ
  epistemic : ℚ
  self_model : ℚ
deriving DecidableEq

/-- Result record of `DissonanceDetector.calculate_dissonance`. -/
structure DissonanceResult where
  score : ℚ
  components : DissonanceComponents
  explanation : String
  token : String
  token_index : Int
  timestamp : String
  should_inhibit : Bool
  inhibition_level : String
deriving DecidableEq

/-- The if/elif classification chain inside
`DissonanceDetector.calculate_dissonance`, factored as a helper returning
the `(should_inhibit, inhibition_level, explanation)` triple. -/
def inhibition_classify (token : String) (total_score : ℚ) : Bool × String × String :=
  if THRESHOLD_ABORT ≤ total_score then
    (true, "abort", "CRITICAL DISSONANCE: Token \x27" ++ token ++ "\x27 creates unverifiable claim (D=" ++ fmt2 total_score ++ ")")
  else if THRESHOLD_REFRAME ≤ total_score then
    (true, "reframe", "HIGH DISSONANCE: Should rephrase to avoid unverified claim (D=" ++ fmt2 total_score ++ ")")
  else if THRESHOLD_UNCERTAINTY ≤ total_score then
    (false, "uncertainty", "MODERATE DISSONANCE: Express uncertainty (D=" ++ fmt2 total_score ++ ")")
  else
    (false, "none", "Low dissonance - token aligns with knowledge (D=" ++ fmt2 total_score ++ ")")

/-- Embedding of `DissonanceDetector.calculate_dissonance` (the returned
result; the history and counter updates are in `detector_step`). -/
def calculate_dissonance (g : CausalGraph) (token : String) (token_index : Int)
    (context : List String) (proposed_claim : Option Claim) (now : String) : DissonanceResult :=
  let d_semantic := calculate_semantic_dissonance g token context proposed_claim
  let d_epistemic := calculate_epistemic_dissonance g token context proposed_claim
  let d_self_model := calculate_self_model_dissonance token context
  let total_score := WEIGHT_SEMANTIC * d_semantic + WEIGHT_EPISTEMIC * d_epistemic + WEIGHT_SELF_MODEL * d_self_model
  let c := inhibition_classify token total_score
  { score := total_score
    components := { semantic := d_semantic, epistemic := d_epistemic, self_model := d_self_model }
    explanation := c.2.2
    token := token
    token_index := token_index
    timestamp := now
    should_inhibit := c.1
    inhibition_level := c.2.1 }

/-- Mutable session state of the detector. -/
structure DetectorState where
  detection_history : List DissonanceResult
  total_detections : Nat
  inhibitions_triggered : Nat
deriving DecidableEq

/-- Fresh detector state (constructor and `reset_session`). -/
def detector_reset : DetectorState :=
  { detection_history := [], total_detections := 0, inhibitions_triggered := 0 }

/-- One full `calculate_dissonance` call including its logging side
effects on the detector state. -/
def detector_step (g : CausalGraph) (st : DetectorState) (token : String) (token_index : Int)
    (context : List String) (proposed_claim : Option Claim) (now : String) :
    DissonanceResult × DetectorState :=
  let result := calculate_dissonance g token token_index context proposed_claim now
  (result,
   { detection_history := st.detection_history ++ [result]
     total_detections := st.total_detections + 1
     inhibitions_triggered := st.inhibitions_triggered + (if result.should_inhibit then 1 else 0) })

/-- Result record of `InhibitionController.decide_action`. -/
structure InhibitionResult where
  action : String
  reason : String
  alternative_response : Option String
  tokens_saved : Int
  energy_saved_percent : ℚ
  timestamp : String
deriving DecidableEq

/-- One entry of the controller decision history. -/
structure DecisionRecord where
  dissonance : ℚ
  action : String
  tokens_saved : Int
  timestamp : String
deriving DecidableEq

/-- Mutable statistics of the controller. The per-action counter dict is
kept as the insertion-ordered association list declared in `__init__`. -/
structure ControllerStats where
  total_decisions : Nat
  inhibitions_by_type : List (String × Nat)
  total_tokens_saved : Int
  decision_history : List DecisionRecord
deriving DecidableEq

/-- Fresh controller statistics, with the four counter keys declared in
`InhibitionController.__init__`. -/
def controller_reset : ControllerStats :=
  { total_decisions := 0
    inhibitions_by_type := [("continue", 0), ("uncertainty", 0), ("reframe", 0), ("abort", 0)]
    total_tokens_saved := 0
    decision_history := [] }

/-- Python `d[k] += 1` on a counter dict: raises `KeyError` when the key is
absent, otherwise increments in place. -/
def dict_incr (m : List (String × Nat)) (k : String) : Except String (List (String × Nat)) :=
  if (m.find? (fun kv => decide (kv.1 = k))).isSome then
    Except.ok (m.map (fun kv => if kv.1 = k then (kv.1, kv.2 + 1) else kv))
  else
    Except.error ("KeyError: " ++ k)

/-- String rendering of an attribute value inside an f-string (only string
values are ever rendered by the program). -/
def value_str : AttrValue → String
  | AttrValue.vstr s => s
  | AttrValue.vnat n => toString n
  | AttrValue.vrat q => toString q
  | AttrValue.vbool b => toString b
  | AttrValue.vlist xs => toString xs
  | AttrValue.vnone => "None"

/-- Python `info.get(k, dflt)` rendered to a string. -/
def attr_get_str (attrs : Attrs) (k dflt : String) : String :=
  match attr_get attrs k with
  | some v => value_str v
  | none => dflt

/-- Python `str(x)` of an optional string (`None` renders as "None"). -/
def opt_str (o : Option String) : String :=
  o.getD "None"

/-- Embedding of `InhibitionController._generate_abort_response`. -/
def generate_abort_response (g : CausalGraph) (proposed_claim : Option Claim)
    (context : List String) : String :=
  match proposed_claim with
  | none => "I cannot verify this claim in my knowledge base. I\x27m stopping generation to avoid potential misinformation."
  | some c =>
    let entity_a := c.entity_a.getD "Entity A"
    let entity_b := c.entity_b.getD "Entity B"
    let relation := c.relation.getD "relationship"
    let info_a := get_node_info g entity_a
    let info_b := get_node_info g entity_b
    let parts0 : List String :=
      ["⚠️ INTEGRITY ALERT", "",
       "I cannot verify a " ++ relation ++ " between " ++ entity_a ++ " and " ++ entity_b ++ " in my knowledge graph.", ""]
    let parts_a : List String :=
      if info_falsy info_a then []
      else
        ["What I can verify about " ++ entity_a ++ ":",
         "- Type: " ++ attr_get_str (info_a.getD []) "type" "unknown"] ++
        (match attr_get (info_a.getD []) "country" with
         | some v => ["- Country: " ++ value_str v]
         | none => [])
    let parts_b : List String :=
      if info_falsy info_b then []
      else
        ["", "What I can verify about " ++ entity_b ++ ":",
         "- Type: " ++ attr_get_str (info_b.getD []) "type" "unknown"] ++
        (match attr_get (info_b.getD []) "country" with
         | some v => ["- Country: " ++ value_str v]
         | none => [])
    let tail_parts : List String :=
      ["", "No documented " ++ relation ++ " exists in my verified knowledge base.", "",
       "Would you like me to:", "1. Search the web for current information?",
       "2. Provide details on each entity separately?", "3. Explain my knowledge limitations?"]
    String.intercalate "\n" (parts0 ++ parts_a ++ parts_b ++ tail_parts)

/-- Embedding of `InhibitionController._generate_reframe_response`. -/
def generate_reframe_response (g : CausalGraph) (proposed_claim : Option Claim)
    (context : List String) : String :=
  match proposed_claim with
  | none => "Based on my knowledge, I cannot confirm this with high confidence. Let me rephrase more carefully..."
  | some c =>
    let info_a := get_node_info g (c.entity_a.getD "")
    let info_b := get_node_info g (c.entity_b.getD "")
    let response := "I don\x27t have verified information about a direct relationship between " ++
      opt_str c.entity_a ++ " and " ++ opt_str c.entity_b ++ ". "
    if !info_falsy info_a && !info_falsy info_b then
      let ia := info_a.getD []
      let ib := info_b.getD []
      let r1 := response ++ "I can tell you about each separately: " ++ opt_str c.entity_a ++
        " is " ++ attr_get_str ia "type" "an entity" ++ " "
      let r2 := match attr_get ia "country" with
        | some v => r1 ++ "from " ++ value_str v ++ " "
        | none => r1
      let r3 := r2 ++ "and " ++ opt_str c.entity_b ++ " is " ++ attr_get_str ib "type" "an entity" ++ " "
      match attr_get ib "country" with
      | some v => r3 ++ "from " ++ value_str v ++ ". "
      | none => r3
    else response

/-- The fixed qualifier set of `_generate_uncertainty_response`. -/
def qualifiers : List String :=
  ["Based on my knowledge,", "As far as I can verify,", "According to my data,",
   "To my understanding,", "If I\x27m not mistaken,"]

/-- Embedding of `InhibitionController._generate_uncertainty_response`:
`random.choice(qualifiers)` modelled by an explicit random index. -/
def generate_uncertainty_response (context : List String) (rand_index : Nat) : String :=
  qualifiers.getD (rand_index % qualifiers.length) ""

/-- Embedding of `InhibitionController.decide_action`, including its
statistics updates. A `KeyError` raised by the per-action counter update
surfaces as `Except.error`; the partially mutated state of the aborted
Python call is not observable through the model. -/
def decide_action (g : CausalGraph) (st : ControllerStats) (dissonance_score : ℚ)
    (token : String) (token_index total_tokens_planned : Int) (context : List String)
    (proposed_claim : Option Claim) (rand_index : Nat) (now : String) :
    Except String (InhibitionResult × ControllerStats) :=
  let remaining_tokens : Int := total_tokens_planned - token_index
  let (action, reason, alternative, tokens_saved) :=
    if THRESHOLD_ABORT ≤ dissonance_score then
      ("abort", "Critical dissonance (" ++ fmt2 dissonance_score ++ ") - Unverified claim detected",
       some (generate_abort_response g proposed_claim context), remaining_tokens)
    else if THRESHOLD_REFRAME ≤ dissonance_score then
      ("reframe", "High dissonance (" ++ fmt2 dissonance_score ++ ") - Rephrasing to add verification",
       some (generate_reframe_response g proposed_claim context), remaining_tokens)
    else if THRESHOLD_UNCERTAINTY ≤ dissonance_score then
      ("add_uncertainty", "Moderate dissonance (" ++ fmt2 dissonance_score ++ ") - Adding epistemic qualifier",
       some (generate_uncertainty_response context rand_index), (0 : Int))
    else
      ("continue", "Low dissonance (" ++ fmt2 dissonance_score ++ ") - Token aligns with knowledge",
       none, (0 : Int))
  let energy_saved_percent : ℚ := ((tokens_saved : ℚ) / ((max total_tokens_planned 1 : Int) : ℚ)) * 100
  let result : InhibitionResult :=
    { action := action, reason := reason, alternative_response := alternative,
      tokens_saved := tokens_saved, energy_saved_percent := energy_saved_percent, timestamp := now }
  match dict_incr st.inhibitions_by_type action with
  | Except.error e => Except.error e
  | Except.ok m2 =>
    Except.ok (result,
      { total_decisions := st.total_decisions + 1
        inhibitions_by_type := m2
        total_tokens_saved := st.total_tokens_saved + tokens_saved
        decision_history := st.decision_history ++
          [{ dissonance := dissonance_score, action := action, tokens_saved := tokens_saved, timestamp := now }] })

/-- Projection of the saved-token count out of a (possibly failing)
`decide_action` call. -/
def tokens_saved_of (e : Except String (InhibitionResult × ControllerStats)) : Option Int :=
  match e with
  | Except.ok (r, _) => some r.tokens_saved
  | Except.error _ => none

/-- The tokens-saved invariant claimed for decisions returned by
`decide_action`: whenever the call returns normally, the saved-token count
is between 0 and the tokens remaining, equal to the remainder for abort and
reframe and zero for add_uncertainty and continue. -/
def TokensSavedInv (e : Except String (InhibitionResult × ControllerStats)) (rem : Int) : Prop :=
  ∀ res st2, e = Except.ok (res, st2) →
    0 ≤ res.tokens_saved ∧ res.tokens_saved ≤ rem ∧
    ((res.action = "abort" ∨ res.action = "reframe") → res.tokens_saved = rem) ∧
    ((res.action = "add_uncertainty" ∨ res.action = "continue") → res.tokens_saved = 0)

/-- C1: a `decide_action` call in the add_uncertainty band
(0.30 ≤ score < 0.65) does not return normally: the per-action statistics
update `self.inhibitions_by_type[action] += 1` raises `KeyError`, because
the counter dict declares the key `uncertainty` while the action string is
`add_uncertainty`. The input reproduces TEST 2 of the module's own
`__main__` self-test, which therefore crashes. -/
theorem C1_uncertainty_band_keyerror :
    decide_action init_graph controller_reset (45/100) "possibly" 10 30
      ["Some", "claims", "about"] none 0 "ts" =
      Except.error "KeyError: add_uncertainty" := by
  have h1 : ¬ (THRESHOLD_ABORT ≤ (45/100 : ℚ)) := by norm_num [THRESHOLD_ABORT]
  have h2 : ¬ (THRESHOLD_REFRAME ≤ (45/100 : ℚ)) := by norm_num [THRESHOLD_REFRAME]
  have h3 : THRESHOLD_UNCERTAINTY ≤ (45/100 : ℚ) := by norm_num [THRESHOLD_UNCERTAINTY]
  have hd : dict_incr controller_reset.inhibitions_by_type "add_uncertainty" =
      Except.error "KeyError: add_uncertainty" := by
    unfold dict_incr controller_reset
    simp
  unfold decide_action
  simp only [if_neg h1, if_neg h2, if_pos h3, hd]

/-- C4 counterexample: with `token_index = 3 > total_tokens_planned = 1`
(an arbitrary call, as the claim quantifies over every call), the returned
decision has `tokens_saved = -2`, a negative value, contradicting the
claimed non-negativity. -/
theorem C4_counterexample_negative_saved :
    tokens_saved_of (decide_action init_graph controller_reset (95/100) "x" 3 1 [] none 0 "ts") =
      some (-2) ∧ (-2 : Int) < 0 := by
  refine ⟨?_, by norm_num⟩
  have h1 : THRESHOLD_ABORT ≤ (95/100 : ℚ) := by norm_num [THRESHOLD_ABORT]
  have hd : dict_incr controller_reset.inhibitions_by_type "abort" =
      Except.ok [("continue", 0), ("uncertainty", 0), ("reframe", 0), ("abort", 1)] := by
    unfold dict_incr controller_reset
    simp
  unfold tokens_saved_of decide_action
  simp only [if_pos h1, hd]
  norm_num

/-- C4 (amended): provided `token_index ≤ total_tokens_planned`, any
normally returned decision satisfies the tokens-saved bounds: the count
lies in `[0, remaining]`, equals `remaining` for abort and reframe, and is
zero for add_uncertainty and continue. -/
theorem C4_tokens_saved_amended (g : CausalGraph) (st : ControllerStats) (s : ℚ)
    (token : String) (token_index total_tokens_planned : Int) (context : List String)
    (proposed_claim : Option Claim) (rand_index : Nat) (now : String)
    (h : token_index ≤ total_tokens_planned) :
    TokensSavedInv (decide_action g st s token token_index total_tokens_planned context proposed_claim rand_index now)
      (total_tokens_planned - token_index) := by
  intro res st2 heq
  unfold decide_action at heq
  split_ifs at heq with h1 h2 h3 <;>
    [rcases hb : dict_incr st.inhibitions_by_type "abort" with e | m2;
     rcases hb : dict_incr st.inhibitions_by_type "reframe" with e | m2;
     rcases hb : dict_incr st.inhibitions_by_type "add_uncertainty" with e | m2;
     rcases hb : dict_incr st.inhibitions_by_type "continue" with e | m2] <;>
    simp only [hb, reduceCtorEq, Except.ok.injEq, Prod.mk.injEq] at heq <;>
    obtain ⟨hres, -⟩ := heq <;>
    subst hres <;>
    refine ⟨?_, ?_, ?_, ?_⟩ <;>
    dsimp only <;>
    first
      | omega
      | (intro hact; first | rfl | (rcases hact with hact | hact <;> simp at hact))

/-- C4 witness: the amended tokens-saved invariant instantiated at a
concrete abort-band call with three tokens already emitted out of ten. -/
theorem C4_tokens_saved_witness :
    TokensSavedInv (decide_action init_graph controller_reset (95/100) "x" 3 10 [] none 0 "ts") 7 :=
  C4_tokens_saved_amended init_graph controller_reset (95/100) "x" 3 10 [] none 0 "ts" (by decide)

/-- C9: when either entity id is absent from the semantic layer,
`query_relationship` returns (normally, it is a total function) the
`exists=False, confidence=0.0` dictionary. -/
theorem C9_absent_ids_query (g : CausalGraph) (a b : String)
    (h : has_node g.semantic a = false ∨ has_node g.semantic b = false) :
    query_relationship g a b = no_relation_result := by
  unfold query_relationship
  rcases h with h | h
  · simp [h]
  · rcases ha : has_node g.semantic a with _ | _ <;> simp [ha, h]

set_option maxRecDepth 8000 in
/-- C9 witness: a query for an id that is not in the seeded graph returns
the absent result. -/
theorem C9_absent_ids_witness :
    query_relationship init_graph "Unicorn_Paper_Corp" "Hahnemühle" = no_relation_result :=
  C9_absent_ids_query init_graph "Unicorn_Paper_Corp" "Hahnemühle" (Or.inl (by decide))

/-- C2: the inhibition level returned by `calculate_dissonance` is a
function of the total score alone, classified by the fixed thresholds
(abort iff score ≥ 0.90, reframe iff 0.65 ≤ score < 0.90, uncertainty iff
0.30 ≤ score < 0.65, none iff score < 0.30), and `should_inhibit` holds
exactly for reframe and abort, i.e. iff score ≥ 0.65. -/
theorem C2_inhibition_level_thresholds (g : CausalGraph) (token : String) (token_index : Int)
    (context : List String) (proposed_claim : Option Claim) (now : String) :
    ((calculate_dissonance g token token_index context proposed_claim now).inhibition_level = "abort" ↔
      90/100 ≤ (calculate_dissonance g token token_index context proposed_claim now).score) ∧
    ((calculate_dissonance g token token_index context proposed_claim now).inhibition_level = "reframe" ↔
      (65/100 ≤ (calculate_dissonance g token token_index context proposed_claim now).score ∧
       (calculate_dissonance g token token_index context proposed_claim now).score < 90/100)) ∧
    ((calculate_dissonance g token token_index context proposed_claim now).inhibition_level = "uncertainty" ↔
      (30/100 ≤ (calculate_dissonance g token token_index context proposed_claim now).score ∧
       (calculate_dissonance g token token_index context proposed_claim now).score < 65/100)) ∧
    ((calculate_dissonance g token token_index context proposed_claim now).inhibition_level = "none" ↔
      (calculate_dissonance g token token_index context proposed_claim now).score < 30/100) ∧
    ((calculate_dissonance g token token_index context proposed_claim now).should_inhibit = true ↔
      65/100 ≤ (calculate_dissonance g token token_index context proposed_claim now).score) := by
  have hlv : (calculate_dissonance g token token_index context proposed_claim now).inhibition_level =
      (inhibition_classify token (calculate_dissonance g token token_index context proposed_claim now).score).2.1 := rfl
  have hsi : (calculate_dissonance g token token_index context proposed_claim now).should_inhibit =
      (inhibition_classify token (calculate_dissonance g token token_index context proposed_claim now).score).1 := rfl
  rw [hlv, hsi]
  generalize (calculate_dissonance g token token_index context proposed_claim now).score = t
  unfold inhibition_classify
  split_ifs with h1 h2 h3 <;>
    dsimp only <;>
    (try unfold THRESHOLD_ABORT at *) <;>
    (try unfold THRESHOLD_REFRAME at *) <;>
    (try unfold THRESHOLD_UNCERTAINTY at *) <;>
    (try rw [not_le] at h1) <;>
    (try rw [not_le] at h2) <;>
    (try rw [not_le] at h3) <;>
    refine ⟨?_, ?_, ?_, ?_, ?_⟩ <;>
    constructor <;>
    intro hx <;>
    (try obtain ⟨hx1, hx2⟩ := hx) <;>
    first
      | rfl
      | linarith
      | (exact absurd hx (by decide))
      | (exact ⟨by linarith, by linarith⟩)

lemma node_lookup_isSome_eq (d : DiGraph) (v : String) :
    (node_lookup d v).isSome = has_node d v := by
  unfold node_lookup has_node
  cases hf : d.nodes.find? (fun kv => decide (kv.1 = v)) <;> simp [hf]

lemma node_lookup_eq_none_of_absent (d : DiGraph) (v : String)
    (h : has_node d v = false) : node_lookup d v = none := by
  have := node_lookup_isSome_eq d v
  rw [h] at this
  exact Option.not_isSome_iff_eq_none.mp (by simp [this])

/-- C6 counterexample: a structured claim is supplied (entity_a is
present) but entity_b is missing; the graph query would find no
relationship, so the claim as stated predicts a semantic axis of 0.95,
while the code returns 0 without querying. -/
theorem C6_counterexample_missing_entity :
    calculate_semantic_dissonance init_graph "tok" []
      (some { entity_a := some "Hahnemühle", entity_b := none, relation := none }) = 0 ∧
    (0 : ℚ) ≠ 95/100 := by
  constructor
  · unfold calculate_semantic_dissonance
    simp [truthy]
  · norm_num

/-- C6 (amended): the semantic axis is 0 when no claim is supplied or when
either entity field of the claim is missing or empty; otherwise it is
decided by the queried relationship: 0.95 when none is found, 0.70 when one
is found and the claim requests a relation whose label differs, and
1 − confidence when one is found and the claim requests no relation or the
label matches. -/
theorem C6_semantic_axis_amended (g : CausalGraph) (token : String) (context : List String) (c : Claim) :
    calculate_semantic_dissonance g token context none = 0 ∧
    ((truthy c.entity_a && truthy c.entity_b) = false →
      calculate_semantic_dissonance g token context (some c) = 0) ∧
    ((truthy c.entity_a && truthy c.entity_b) = true →
      ((query_relationship g (c.entity_a.getD "") (c.entity_b.getD "")).exists_found = false →
        calculate_semantic_dissonance g token context (some c) = 95/100) ∧
      ((query_relationship g (c.entity_a.getD "") (c.entity_b.getD "")).exists_found = true →
        truthy c.relation = true →
        (query_relationship g (c.entity_a.getD "") (c.entity_b.getD "")).relation_type ≠ some (c.relation.getD "") →
        calculate_semantic_dissonance g token context (some c) = 70/100) ∧
      ((query_relationship g (c.entity_a.getD "") (c.entity_b.getD "")).exists_found = true →
        (truthy c.relation = false ∨
         (query_relationship g (c.entity_a.getD "") (c.entity_b.getD "")).relation_type = some (c.relation.getD "")) →
        calculate_semantic_dissonance g token context (some c) =
          1 - (query_relationship g (c.entity_a.getD "") (c.entity_b.getD "")).confidence)) := by
  refine ⟨rfl, ?_, ?_⟩
  · intro h
    unfold calculate_semantic_dissonance
    simp [h]
  · intro h
    refine ⟨?_, ?_, ?_⟩
    · intro hex
      unfold calculate_semantic_dissonance
      simp [h, hex]
    · intro hex htr hne
      unfold calculate_semantic_dissonance
      simp [h, hex, htr, hne]
    · intro hex hor
      unfold calculate_semantic_dissonance
      rcases hor with hor | hor <;> simp [h, hex, hor]

set_option maxRecDepth 8000 in
/-- C6 witness: the amended semantic-axis rule applied to the seeded graph
and the Hahnemühle/Awagami claim, whose entities are known but unrelated:
the axis evaluates to 0.95. -/
theorem C6_semantic_axis_witness :
    calculate_semantic_dissonance init_graph "tok" []
      (some { entity_a := some "Hahnemühle", entity_b := some "Awagami", relation := some "partnership" }) = 95/100 :=
  ((C6_semantic_axis_amended init_graph "tok" []
      { entity_a := some "Hahnemühle", entity_b := some "Awagami", relation := some "partnership" }).2.2
    (by decide)).1 (by decide)

/-- Probe graph for the C10 counterexample: a single self-model node whose
attribute mapping is empty. -/
def ghost_graph : CausalGraph :=
  { semantic := empty_digraph, episodic := empty_digraph,
    self_model := { nodes := [("Ghost_Node", [])], edges := [] },
    creation_time := "", last_update := "" }

/-- C10 counterexample: an id present only in the self-model layer does
resolve through `get_node_info` to its attribute mapping, but when that
mapping is empty, Python truthiness (`not info`) still treats the entity
as unknown and the epistemic axis adds the 0.4 missing-entity penalty —
the claimed "consequently no penalty" implication fails. -/
theorem C10_counterexample_empty_attrs :
    has_node ghost_graph.semantic "Ghost_Node" = false ∧
    has_node ghost_graph.self_model "Ghost_Node" = true ∧
    get_node_info ghost_graph "Ghost_Node" = some [] ∧
    time_keywords.all (fun k => !(contains_sub (lower_str (join_space ([] ++ ["status"]))) k)) = true ∧
    calculate_epistemic_dissonance ghost_graph "status" []
      (some { entity_a := some "Ghost_Node", entity_b := none, relation := none }) = 4/10 ∧
    (4/10 : ℚ) ≠ 0 := by
  refine ⟨by decide, by decide, by decide, by decide, ?_, by norm_num⟩
  unfold calculate_epistemic_dissonance
  dsimp only
  rw [if_neg (by decide), if_pos (by decide), if_neg (by decide)]
  norm_num [min_def]

/-- C10 (corrected): `get_node_info` falls back to the self-model layer, so
an id that is absent from the semantic layer but present in the self-model
graph (such as System_Identity) resolves to its attribute mapping instead
of not-found; and when that mapping is nonempty — Python truthiness treats
an entity resolving to an empty mapping as unknown — the epistemic axis
adds no 0.4 missing-entity penalty for such an entity (here as entity_a,
with the other entity either falsy or also resolving to a nonempty
mapping). -/
theorem C10_self_model_fallback (g : CausalGraph) (i token : String) (context : List String)
    (eb rel : Option String)
    (hsem : has_node g.semantic i = false)
    (hself : has_node g.self_model i = true)
    (hattrs : info_falsy (node_lookup g.self_model i) = false)
    (htime : time_keywords.all (fun k => !(contains_sub (lower_str (join_space (context ++ [token]))) k)) = true)
    (hebres : truthy eb = false ∨ info_falsy (get_node_info g (eb.getD "")) = false) :
    get_node_info g i = node_lookup g.self_model i ∧
    (get_node_info g i).isSome = true ∧
    calculate_epistemic_dissonance g token context (some { entity_a := some i, entity_b := eb, relation := rel }) = 0 := by
  have h1 : get_node_info g i = node_lookup g.self_model i := by
    unfold get_node_info
    rw [node_lookup_eq_none_of_absent g.semantic i hsem]
  have h2 : (get_node_info g i).isSome = true := by
    rw [h1, node_lookup_isSome_eq, hself]
  refine ⟨h1, h2, ?_⟩
  unfold calculate_epistemic_dissonance
  have hany : time_keywords.any (fun k => contains_sub (lower_str (join_space (context ++ [token]))) k) = false := by
    rw [List.any_eq_false]
    intro k hk
    have := List.all_eq_true.mp htime k hk
    simpa using this
  have hgi : info_falsy (get_node_info g i) = false := by
    rw [h1]
    exact hattrs
  rcases hebres with hf | hs
  · simp [hany, hgi, hf]
    norm_num [min_def]
  · simp [hany, hgi, hs]
    norm_num [min_def]

set_option maxRecDepth 8000 in
/-- C10 witness: on the seeded graph, System_Identity lives only in the
self-model layer with a nonempty attribute mapping, resolves through
`get_node_info`, and a claim naming it twice incurs no epistemic
missing-entity penalty. -/
theorem C10_self_model_witness :
    get_node_info init_graph "System_Identity" = node_lookup init_graph.self_model "System_Identity" ∧
    (get_node_info init_graph "System_Identity").isSome = true ∧
    calculate_epistemic_dissonance init_graph "status" []
      (some { entity_a := some "System_Identity", entity_b := some "System_Identity", relation := none }) = 0 :=
  C10_self_model_fallback init_graph "System_Identity" "status" [] (some "System_Identity") none
    (by decide) (by decide) (by decide) (by decide) (Or.inr (by decide))

lemma find?_map_upsert {κ α : Type} [DecidableEq κ] (l : List (κ × α)) (k w : κ) (f : κ × α → α) :
    (l.map (fun kv => if kv.1 = k then (kv.1, f kv) else kv)).find? (fun kv => decide (kv.1 = w)) =
    (l.find? (fun kv => decide (kv.1 = w))).map (fun kv => if kv.1 = k then (kv.1, f kv) else kv) := by
  induction l with
  | nil => rfl
  | cons hd tl ih =>
    have hkey : ((fun kv => if kv.1 = k then (kv.1, f kv) else kv) hd).1 = hd.1 := by
      simp only []
      split <;> rfl
    rw [List.map_cons]
    cases hw : decide (hd.1 = w) with
    | true =>
      have h1 : List.find? (fun kv => decide (kv.1 = w))
          ((fun kv => if kv.1 = k then (kv.1, f kv) else kv) hd ::
            List.map (fun kv => if kv.1 = k then (kv.1, f kv) else kv) tl) =
          some ((fun kv => if kv.1 = k then (kv.1, f kv) else kv) hd) :=
        List.find?_cons_of_pos _ (by simpa [hkey] using hw)
      have h2 : List.find? (fun kv => decide (kv.1 = w)) (hd :: tl) = some hd :=
        List.find?_cons_of_pos _ hw
      rw [h1, h2]
      rfl
    | false =>
      have h1 : List.find? (fun kv => decide (kv.1 = w))
          ((fun kv => if kv.1 = k then (kv.1, f kv) else kv) hd ::
            List.map (fun kv => if kv.1 = k then (kv.1, f kv) else kv) tl) =
          List.find? (fun kv => decide (kv.1 = w))
            (List.map (fun kv => if kv.1 = k then (kv.1, f kv) else kv) tl) :=
        List.find?_cons_of_neg _ (by simp [hkey, hw])
      have h2 : List.find? (fun kv => decide (kv.1 = w)) (hd :: tl) =
          List.find? (fun kv => decide (kv.1 = w)) tl :=
        List.find?_cons_of_neg _ (by simp [hw])
      rw [h1, h2, ih]

lemma has_node_add_node_self (d : DiGraph) (v : String) (attrs : Attrs) :
    has_node (add_node d v attrs) v = true := by
  unfold add_node
  split_ifs with h
  · unfold has_node at h ⊢
    rw [find?_map_upsert]
    cases hf : d.nodes.find? (fun kv => decide (kv.1 = v)) <;> simp [hf] at h ⊢
  · unfold has_node at h ⊢
    rw [List.find?_append]
    have hn : d.nodes.find? (fun kv => decide (kv.1 = v)) = none := by
      cases hf : d.nodes.find? (fun kv => decide (kv.1 = v)) <;> simp [hf] at h ⊢
    simp [hn, List.find?]

lemma has_node_add_node_mono (d : DiGraph) (v w : String) (attrs : Attrs)
    (h : has_node d w = true) : has_node (add_node d v attrs) w = true := by
  unfold add_node
  split_ifs with hv
  · unfold has_node at h ⊢
    rw [find?_map_upsert]
    cases hf : d.nodes.find? (fun kv => decide (kv.1 = w)) <;> simp [hf] at h ⊢
  · unfold has_node at h ⊢
    rw [List.find?_append]
    cases hf : d.nodes.find? (fun kv => decide (kv.1 = w)) <;> simp [hf] at h ⊢

lemma has_node_add_node_cases (d : DiGraph) (v w : String) (attrs : Attrs)
    (h : has_node (add_node d v attrs) w = true) : has_node d w = true ∨ w = v := by
  by_cases hw : w = v
  · exact Or.inr hw
  · left
    unfold add_node at h
    split_ifs at h with hv
    · unfold has_node at h ⊢
      rw [find?_map_upsert] at h
      cases hf : d.nodes.find? (fun kv => decide (kv.1 = w)) <;> simp [hf] at h ⊢
    · unfold has_node at h ⊢
      rw [List.find?_append] at h
      cases hf : d.nodes.find? (fun kv => decide (kv.1 = w)) <;>
        simp [hf, List.find?, Ne.symm hw] at h ⊢

lemma node_lookup_add_node_self (d : DiGraph) (v : String) (attrs : Attrs) :
    node_lookup (add_node d v attrs) v =
      some (match node_lookup d v with
            | some old => update_attrs old attrs
            | none => attrs) := by
  unfold add_node
  split_ifs with h
  · unfold has_node at h
    unfold node_lookup
    rw [find?_map_upsert]
    cases hf : d.nodes.find? (fun kv => decide (kv.1 = v)) with
    | none => simp [hf] at h
    | some kv =>
      have hkey : kv.1 = v := by
        have := List.find?_some hf
        simpa using this
      simp [hf, hkey]
  · unfold has_node at h
    unfold node_lookup
    have hn : d.nodes.find? (fun kv => decide (kv.1 = v)) = none := by
      cases hf : d.nodes.find? (fun kv => decide (kv.1 = v)) <;> simp [hf] at h ⊢
    rw [List.find?_append]
    simp [hn, List.find?]

lemma node_lookup_add_node_ne (d : DiGraph) (v w : String) (attrs : Attrs)
    (hne : w ≠ v) : node_lookup (add_node d v attrs) w = node_lookup d w := by
  unfold add_node
  split_ifs with h
  · unfold node_lookup
    rw [find?_map_upsert]
    cases hf : d.nodes.find? (fun kv => decide (kv.1 = w)) with
    | none => simp [hf]
    | some kv =>
      have hkey : kv.1 = w := by
        have := List.find?_some hf
        simpa using this
      simp [hf, hkey, hne]
  · unfold node_lookup
    rw [List.find?_append]
    cases hf : d.nodes.find? (fun kv => decide (kv.1 = w)) <;>
      simp [hf, List.find?, Ne.symm hne]

lemma edges_add_node (d : DiGraph) (v : String) (attrs : Attrs) :
    (add_node d v attrs).edges = d.edges := by
  unfold add_node
  split_ifs <;> rfl

lemma edge_lookup_eq_of_edges_eq (d e : DiGraph) (u v : String) (h : d.edges = e.edges) :
    edge_lookup d u v = edge_lookup e u v := by
  unfold edge_lookup
  rw [h]

lemma add_edge_edges (d : DiGraph) (u v : String) (attrs : Attrs) :
    (add_edge d u v attrs).edges = upsert_edge d.edges u v attrs := by
  unfold add_edge
  dsimp only
  split_ifs <;> simp [edges_add_node]

lemma node_lookup_add_edge_of_has (d : DiGraph) (u v w : String) (attrs : Attrs)
    (hu : has_node d u = true) (hv : has_node d v = true) :
    node_lookup (add_edge d u v attrs) w = node_lookup d w := by
  unfold add_edge
  dsimp only
  simp only [hu, hv, if_true]
  rfl

lemma has_node_add_edge_of_has (d : DiGraph) (u v w : String) (attrs : Attrs)
    (hu : has_node d u = true) (hv : has_node d v = true) :
    has_node (add_edge d u v attrs) w = has_node d w := by
  rw [← node_lookup_isSome_eq, ← node_lookup_isSome_eq,
    node_lookup_add_edge_of_has d u v w attrs hu hv]

lemma edge_lookup_add_edge_self (d : DiGraph) (u v : String) (attrs : Attrs) :
    edge_lookup (add_edge d u v attrs) u v =
      some (match edge_lookup d u v with
            | some old => update_attrs old attrs
            | none => attrs) := by
  unfold edge_lookup
  rw [add_edge_edges]
  unfold upsert_edge
  split_ifs with h
  · rw [find?_map_upsert]
    cases hf : d.edges.find? (fun e => decide (e.1 = (u, v))) with
    | none => simp [hf] at h
    | some e =>
      have hkey : e.1 = (u, v) := by
        have := List.find?_some hf
        simpa using this
      simp [hf, hkey]
  · have hn : d.edges.find? (fun e => decide (e.1 = (u, v))) = none := by
      cases hf : d.edges.find? (fun e => decide (e.1 = (u, v))) <;> simp [hf] at h ⊢
    rw [List.find?_append]
    simp [hn, List.find?]

lemma has_edge_add_edge_self (d : DiGraph) (u v : String) (attrs : Attrs) :
    has_edge (add_edge d u v attrs) u v = true := by
  unfold has_edge
  rw [edge_lookup_add_edge_self]
  rfl

lemma edges_length_add_edge_present (d : DiGraph) (u v : String) (attrs : Attrs)
    (h : has_edge d u v = true) :
    (add_edge d u v attrs).edges.length = d.edges.length := by
  rw [add_edge_edges]
  unfold upsert_edge
  unfold has_edge edge_lookup at h
  cases hf : d.edges.find? (fun e => decide (e.1 = (u, v))) with
  | none => simp [hf] at h
  | some e => simp [hf]

lemma attr_get_set_attr_self (attrs : Attrs) (k : String) (v : AttrValue) :
    attr_get (set_attr attrs k v) k = some v := by
  unfold set_attr attr_get
  split_ifs with h
  · rw [find?_map_upsert]
    cases hf : attrs.find? (fun kv => decide (kv.1 = k)) with
    | none => simp [hf] at h
    | some kv =>
      have hkey : kv.1 = k := by
        have := List.find?_some hf
        simpa using this
      simp [hf, hkey]
  · have hn : attrs.find? (fun kv => decide (kv.1 = k)) = none := by
      cases hf : attrs.find? (fun kv => decide (kv.1 = k)) <;> simp [hf] at h ⊢
    rw [List.find?_append]
    simp [hn, List.find?]

lemma attr_get_set_attr_ne (attrs : Attrs) (k w : String) (v : AttrValue)
    (hne : w ≠ k) : attr_get (set_attr attrs k v) w = attr_get attrs w := by
  unfold set_attr attr_get
  split_ifs with h
  · rw [find?_map_upsert]
    cases hf : attrs.find? (fun kv => decide (kv.1 = w)) with
    | none => simp [hf]
    | some kv =>
      have hkey : kv.1 = w := by
        have := List.find?_some hf
        simpa using this
      simp [hf, hkey, hne]
  · rw [List.find?_append]
    cases hf : attrs.find? (fun kv => decide (kv.1 = w)) <;>
      simp [hf, List.find?, Ne.symm hne]

lemma update_attrs_four (old : Attrs) (k1 k2 k3 k4 : String) (v1 v2 v3 v4 : AttrValue) :
    update_attrs old [(k1, v1), (k2, v2), (k3, v3), (k4, v4)] =
      set_attr (set_attr (set_attr (set_attr old k1 v1) k2 v2) k3 v3) k4 v4 := rfl

lemma attr_get_upsert_four (old : Attrs) (k1 k2 k3 k4 : String) (v1 v2 v3 v4 : AttrValue)
    (h12 : k1 ≠ k2) (h13 : k1 ≠ k3) (h14 : k1 ≠ k4)
    (h23 : k2 ≠ k3) (h24 : k2 ≠ k4) (h34 : k3 ≠ k4) :
    attr_get (update_attrs old [(k1, v1), (k2, v2), (k3, v3), (k4, v4)]) k1 = some v1 ∧
    attr_get (update_attrs old [(k1, v1), (k2, v2), (k3, v3), (k4, v4)]) k2 = some v2 ∧
    attr_get (update_attrs old [(k1, v1), (k2, v2), (k3, v3), (k4, v4)]) k3 = some v3 ∧
    attr_get (update_attrs old [(k1, v1), (k2, v2), (k3, v3), (k4, v4)]) k4 = some v4 := by
  rw [update_attrs_four]
  refine ⟨?_, ?_, ?_, ?_⟩
  · rw [attr_get_set_attr_ne _ _ _ _ h14, attr_get_set_attr_ne _ _ _ _ h13,
      attr_get_set_attr_ne _ _ _ _ h12, attr_get_set_attr_self]
  · rw [attr_get_set_attr_ne _ _ _ _ h24, attr_get_set_attr_ne _ _ _ _ h23,
      attr_get_set_attr_self]
  · rw [attr_get_set_attr_ne _ _ _ _ h34, attr_get_set_attr_self]
  · rw [attr_get_set_attr_self]

lemma nodes_length_add_node_absent (d : DiGraph) (v : String) (attrs : Attrs)
    (h : has_node d v = false) :
    (add_node d v attrs).nodes.length = d.nodes.length + 1 := by
  unfold add_node
  rw [if_neg (by simp [h])]
  simp

lemma attr_get_four_fresh (k1 k2 k3 k4 : String) (v1 v2 v3 v4 : AttrValue)
    (h12 : k1 ≠ k2) (h13 : k1 ≠ k3) (h14 : k1 ≠ k4)
    (h23 : k2 ≠ k3) (h24 : k2 ≠ k4) (h34 : k3 ≠ k4) :
    attr_get [(k1, v1), (k2, v2), (k3, v3), (k4, v4)] k1 = some v1 ∧
    attr_get [(k1, v1), (k2, v2), (k3, v3), (k4, v4)] k2 = some v2 ∧
    attr_get [(k1, v1), (k2, v2), (k3, v3), (k4, v4)] k3 = some v3 ∧
    attr_get [(k1, v1), (k2, v2), (k3, v3), (k4, v4)] k4 = some v4 := by
  refine ⟨?_, ?_, ?_, ?_⟩ <;>
    simp [attr_get, List.find?, h12, h13, h14, h23, h24, h34,
      Ne.symm h12, Ne.symm h13, Ne.symm h14, Ne.symm h23, Ne.symm h24, Ne.symm h34]

lemma avf_semantic_nodes (g : CausalGraph) (a b rel : String) (conf : ℚ)
    (src : Option String) (now : String) :
    has_node (add_verified_fact g a b rel conf src now).semantic a = true ∧
    has_node (add_verified_fact g a b rel conf src now).semantic b = true := by
  unfold add_verified_fact
  dsimp only
  set s0 := (if has_node g.semantic a = true then g.semantic
    else add_node g.semantic a placeholder_attrs) with hs0
  have ha0 : has_node s0 a = true := by
    rw [hs0]
    split_ifs with h
    · exact h
    · exact has_node_add_node_self _ _ _
  set s1 := (if has_node s0 b = true then s0 else add_node s0 b placeholder_attrs) with hs1
  have ha1 : has_node s1 a = true := by
    rw [hs1]
    split_ifs with h
    · exact ha0
    · exact has_node_add_node_mono _ _ _ _ ha0
  have hb1 : has_node s1 b = true := by
    rw [hs1]
    split_ifs with h
    · exact h
    · exact has_node_add_node_self _ _ _
  rw [has_node_add_edge_of_has _ a b a _ ha1 hb1, has_node_add_edge_of_has _ a b b _ ha1 hb1]
  exact ⟨ha1, hb1⟩

lemma avf_has_edge (g : CausalGraph) (a b rel : String) (conf : ℚ)
    (src : Option String) (now : String) :
    has_edge (add_verified_fact g a b rel conf src now).semantic a b = true := by
  unfold add_verified_fact
  dsimp only
  exact has_edge_add_edge_self _ a b _

/-- C8: calling `add_verified_fact` twice in succession with identical
arguments leaves the semantic edge count equal to what it was after the
first call; the duplicate insertion merges the edge attributes and adds no
edge. The timestamps of the two calls are arbitrary, so this also covers
byte-identical repeats. -/
theorem C8_idempotent_edge_count (g : CausalGraph) (a b rel : String) (conf : ℚ)
    (src : Option String) (t1 t2 : String) :
    (add_verified_fact (add_verified_fact g a b rel conf src t1) a b rel conf src t2).semantic.edges.length =
      (add_verified_fact g a b rel conf src t1).semantic.edges.length := by
  obtain ⟨ha, hb⟩ := avf_semantic_nodes g a b rel conf src t1
  have he := avf_has_edge g a b rel conf src t1
  conv_lhs => rw [add_verified_fact]
  dsimp only
  rw [if_pos ha, if_pos hb]
  exact edges_length_add_edge_present _ a b _ he

/-- The empty three-layer graph used as a probe state. -/
def empty_causal_graph : CausalGraph :=
  { semantic := empty_digraph, episodic := empty_digraph, self_model := empty_digraph,
    creation_time := "", last_update := "" }

/-- C3 counterexample: `add_verified_fact(a, b, ...)` inserts the directed
edge `(a, b)`; the edge `(b, a)` that the claim says is inserted is absent
after the call on fresh endpoints. -/
theorem C3_counterexample_edge_direction :
    has_edge (add_verified_fact empty_causal_graph "EntA" "EntB" "causes" (9/10) none "t0").semantic "EntB" "EntA" = false ∧
    has_edge (add_verified_fact empty_causal_graph "EntA" "EntB" "causes" (9/10) none "t0").semantic "EntA" "EntB" = true := by
  constructor <;> decide

/-- C3 (amended): `add_verified_fact(a, b, relation, confidence, source)`
auto-creates any missing endpoint as an unverified placeholder node,
inserts or overwrites the directed edge `(a, b)` — not `(b, a)` — with
last-write-wins semantics on relation, confidence, provenance and
timestamp, records the learning event in the episodic layer under its
timestamp-derived key, and grows the episodic log by exactly one record
whenever that key is fresh. -/
theorem C3_add_verified_fact_amended (g : CausalGraph) (a b rel : String) (conf : ℚ)
    (src : Option String) (now : String) :
    has_node (add_verified_fact g a b rel conf src now).semantic a = true ∧
    has_node (add_verified_fact g a b rel conf src now).semantic b = true ∧
    (has_node g.semantic a = false →
      node_lookup (add_verified_fact g a b rel conf src now).semantic a = some placeholder_attrs) ∧
    (has_node g.semantic b = false →
      node_lookup (add_verified_fact g a b rel conf src now).semantic b = some placeholder_attrs) ∧
    (∃ es, edge_lookup (add_verified_fact g a b rel conf src now).semantic a b = some es ∧
      attr_get es "relation" = some (AttrValue.vstr rel) ∧
      attr_get es "confidence" = some (AttrValue.vrat conf) ∧
      attr_get es "source" = some (source_value src) ∧
      attr_get es "added_at" = some (AttrValue.vstr now)) ∧
    (∃ ea, node_lookup (add_verified_fact g a b rel conf src now).episodic ("Learning_Event_" ++ now) = some ea ∧
      attr_get ea "fact" = some (AttrValue.vstr (a ++ " --[" ++ rel ++ "]--> " ++ b)) ∧
      attr_get ea "confidence" = some (AttrValue.vrat conf) ∧
      attr_get ea "timestamp" = some (AttrValue.vstr now)) ∧
    (has_node g.episodic ("Learning_Event_" ++ now) = false →
      (add_verified_fact g a b rel conf src now).episodic.nodes.length = g.episodic.nodes.length + 1) := by
  obtain ⟨hA, hB⟩ := avf_semantic_nodes g a b rel conf src now
  refine ⟨hA, hB, ?_, ?_, ?_, ?_, ?_⟩
  · -- placeholder node for a missing endpoint a
    intro hag
    unfold add_verified_fact
    dsimp only
    set s0 := (if has_node g.semantic a = true then g.semantic
      else add_node g.semantic a placeholder_attrs) with hs0
    have ha0 : has_node s0 a = true := by
      rw [hs0]
      split_ifs with h
      · exact h
      · exact has_node_add_node_self _ _ _
    have hl0 : node_lookup s0 a = some placeholder_attrs := by
      rw [hs0, if_neg (by simp [hag]), node_lookup_add_node_self,
        node_lookup_eq_none_of_absent g.semantic a hag]
    set s1 := (if has_node s0 b = true then s0 else add_node s0 b placeholder_attrs) with hs1
    have ha1 : has_node s1 a = true := by
      rw [hs1]
      split_ifs with h
      · exact ha0
      · exact has_node_add_node_mono _ _ _ _ ha0
    have hb1 : has_node s1 b = true := by
      rw [hs1]
      split_ifs with h
      · exact h
      · exact has_node_add_node_self _ _ _
    have hl1 : node_lookup s1 a = some placeholder_attrs := by
      rw [hs1]
      split_ifs with h
      · exact hl0
      · have hab : a ≠ b := by
          intro he
          exact h (he ▸ ha0)
        rw [node_lookup_add_node_ne s0 b a placeholder_attrs hab]
        exact hl0
    rw [node_lookup_add_edge_of_has s1 a b a _ ha1 hb1]
    exact hl1
  · -- placeholder node for a missing endpoint b
    intro hbg
    unfold add_verified_fact
    dsimp only
    set s0 := (if has_node g.semantic a = true then g.semantic
      else add_node g.semantic a placeholder_attrs) with hs0
    have ha0 : has_node s0 a = true := by
      rw [hs0]
      split_ifs with h
      · exact h
      · exact has_node_add_node_self _ _ _
    set s1 := (if has_node s0 b = true then s0 else add_node s0 b placeholder_attrs) with hs1
    have ha1 : has_node s1 a = true := by
      rw [hs1]
      split_ifs with h
      · exact ha0
      · exact has_node_add_node_mono _ _ _ _ ha0
    have hb1 : has_node s1 b = true := by
      rw [hs1]
      split_ifs with h
      · exact h
      · exact has_node_add_node_self _ _ _
    have hl1 : node_lookup s1 b = some placeholder_attrs := by
      by_cases hb0 : has_node s0 b = true
      · -- b already in s0 while absent from g: only possible when b = a,
        -- auto-created when a was missing
        have hcases : has_node g.semantic b = true ∨ b = a := by
          rw [hs0] at hb0
          split_ifs at hb0 with h
          · exact Or.inl hb0
          · exact has_node_add_node_cases g.semantic a b placeholder_attrs hb0
        rcases hcases with h | hba
        · rw [hbg] at h
          exact absurd h (by simp)
        · have hag : has_node g.semantic a = false := hba ▸ hbg
          have hl0 : node_lookup s0 b = some placeholder_attrs := by
            rw [hba, hs0, if_neg (by simp [hag]), node_lookup_add_node_self,
              node_lookup_eq_none_of_absent g.semantic a hag]
          rw [hs1, if_pos hb0]
          exact hl0
      · have hb0f : has_node s0 b = false := by simpa using hb0
        rw [hs1, if_neg hb0, node_lookup_add_node_self,
          node_lookup_eq_none_of_absent s0 b hb0f]
    rw [node_lookup_add_edge_of_has s1 a b b _ ha1 hb1]
    exact hl1
  · -- the (a, b) edge carries the freshly written metadata
    unfold add_verified_fact
    dsimp only
    set s0 := (if has_node g.semantic a = true then g.semantic
      else add_node g.semantic a placeholder_attrs) with hs0
    set s1 := (if has_node s0 b = true then s0 else add_node s0 b placeholder_attrs) with hs1
    rw [edge_lookup_add_edge_self]
    cases hlk : edge_lookup s1 a b with
    | none =>
      dsimp only
      refine ⟨_, rfl, ?_⟩
      exact attr_get_four_fresh "relation" "confidence" "source" "added_at"
        (AttrValue.vstr rel) (AttrValue.vrat conf) (source_value src) (AttrValue.vstr now)
        (by decide) (by decide) (by decide) (by decide) (by decide) (by decide)
    | some old =>
      dsimp only
      refine ⟨_, rfl, ?_⟩
      exact attr_get_upsert_four old "relation" "confidence" "source" "added_at"
        (AttrValue.vstr rel) (AttrValue.vrat conf) (source_value src) (AttrValue.vstr now)
        (by decide) (by decide) (by decide) (by decide) (by decide) (by decide)
  · -- the learning event is recorded in the episodic layer
    unfold add_verified_fact
    dsimp only
    rw [node_lookup_add_node_self]
    cases hlk : node_lookup g.episodic ("Learning_Event_" ++ now) with
    | none =>
      dsimp only
      refine ⟨_, rfl, ?_⟩
      have h4 := attr_get_four_fresh "node_type" "fact" "confidence" "timestamp"
        (AttrValue.vstr "learning") (AttrValue.vstr (a ++ " --[" ++ rel ++ "]--> " ++ b))
        (AttrValue.vrat conf) (AttrValue.vstr now)
        (by decide) (by decide) (by decide) (by decide) (by decide) (by decide)
      exact ⟨h4.2.1, h4.2.2.1, h4.2.2.2⟩
    | some old =>
      dsimp only
      refine ⟨_, rfl, ?_⟩
      have h4 := attr_get_upsert_four old "node_type" "fact" "confidence" "timestamp"
        (AttrValue.vstr "learning") (AttrValue.vstr (a ++ " --[" ++ rel ++ "]--> " ++ b))
        (AttrValue.vrat conf) (AttrValue.vstr now)
        (by decide) (by decide) (by decide) (by decide) (by decide) (by decide)
      exact ⟨h4.2.1, h4.2.2.1, h4.2.2.2⟩
  · -- a fresh learning-event key appends exactly one episodic record
    intro hfresh
    unfold add_verified_fact
    dsimp only
    exact nodes_length_add_node_absent g.episodic _ _ hfresh

/-- C3 witness: the amended behavior instantiated on the empty probe graph
with two fresh endpoints and explicit provenance. -/
theorem C3_add_verified_fact_witness :
    has_node (add_verified_fact empty_causal_graph "EntA" "EntB" "causes" (9/10) (some "unit-test") "t0").semantic "EntA" = true ∧
    has_node (add_verified_fact empty_causal_graph "EntA" "EntB" "causes" (9/10) (some "unit-test") "t0").semantic "EntB" = true ∧
    (has_node empty_causal_graph.semantic "EntA" = false →
      node_lookup (add_verified_fact empty_causal_graph "EntA" "EntB" "causes" (9/10) (some "unit-test") "t0").semantic "EntA" = some placeholder_attrs) ∧
    (has_node empty_causal_graph.semantic "EntB" = false →
      node_lookup (add_verified_fact empty_causal_graph "EntA" "EntB" "causes" (9/10) (some "unit-test") "t0").semantic "EntB" = some placeholder_attrs) ∧
    (∃ es, edge_lookup (add_verified_fact empty_causal_graph "EntA" "EntB" "causes" (9/10) (some "unit-test") "t0").semantic "EntA" "EntB" = some es ∧
      attr_get es "relation" = some (AttrValue.vstr "causes") ∧
      attr_get es "confidence" = some (AttrValue.vrat (9/10)) ∧
      attr_get es "source" = some (source_value (some "unit-test")) ∧
      attr_get es "added_at" = some (AttrValue.vstr "t0")) ∧
    (∃ ea, node_lookup (add_verified_fact empty_causal_graph "EntA" "EntB" "causes" (9/10) (some "unit-test") "t0").episodic ("Learning_Event_" ++ "t0") = some ea ∧
      attr_get ea "fact" = some (AttrValue.vstr ("EntA" ++ " --[" ++ "causes" ++ "]--> " ++ "EntB")) ∧
      attr_get ea "confidence" = some (AttrValue.vrat (9/10)) ∧
      attr_get ea "timestamp" = some (AttrValue.vstr "t0")) ∧
    (has_node empty_causal_graph.episodic ("Learning_Event_" ++ "t0") = false →
      (add_verified_fact empty_causal_graph "EntA" "EntB" "causes" (9/10) (some "unit-test") "t0").episodic.nodes.length =
        empty_causal_graph.episodic.nodes.length + 1) :=
  C3_add_verified_fact_amended empty_causal_graph "EntA" "EntB" "causes" (9/10) (some "unit-test") "t0"

lemma mem_succ_list_of_has_edge (d : DiGraph) (u v : String) (h : has_edge d u v = true) :
    v ∈ succ_list d u := by
  unfold has_edge edge_lookup at h
  unfold succ_list
  cases hf : d.edges.find? (fun e => decide (e.1 = (u, v))) with
  | none => rw [hf] at h; simp at h
  | some e =>
    have hkey : e.1 = (u, v) := by
      have := List.find?_some hf
      simpa using this
    have hmem : e ∈ d.edges := List.mem_of_find?_eq_some hf
    exact List.mem_filterMap.mpr ⟨e, hmem, by rw [hkey]; simp⟩

lemma has_edge_of_mem_succ_list (d : DiGraph) (u v : String) (h : v ∈ succ_list d u) :
    has_edge d u v = true := by
  unfold succ_list at h
  rcases List.mem_filterMap.mp h with ⟨e, hmem, hfn⟩
  have hcomp : e.1.1 = u ∧ e.1.2 = v := by
    by_cases hc : e.1.1 = u
    · rw [if_pos hc] at hfn
      exact ⟨hc, by simpa using hfn⟩
    · rw [if_neg hc] at hfn
      simp at hfn
  unfold has_edge edge_lookup
  have hfind : (d.edges.find? (fun e => decide (e.1 = (u, v)))).isSome = true := by
    rw [List.find?_isSome]
    exact ⟨e, hmem, by simp [Prod.ext_iff, hcomp.1, hcomp.2]⟩
  cases hf : d.edges.find? (fun e => decide (e.1 = (u, v))) <;> simp [hf] at hfind ⊢

lemma paths_from_sound (d : DiGraph) (tgt : String) :
    ∀ (fuel : Nat) (cur : String) (visited : List String) (p : List String),
      p ∈ paths_from d tgt fuel cur visited →
      p.head? = some cur ∧ p.getLast? = some tgt ∧ edges_ok d p = true ∧
      p.tail.Nodup ∧ (∀ x ∈ p.tail, x ∉ visited) := by
  intro fuel
  induction fuel with
  | zero =>
    intro cur visited p hp
    unfold paths_from at hp
    split_ifs at hp with h
    · have hpc : p = [cur] := by simpa using hp
      subst hpc
      refine ⟨rfl, by simp [h], rfl, by simp, by simp⟩
    · simp at hp
  | succ f ih =>
    intro cur visited p hp
    unfold paths_from at hp
    split_ifs at hp with h
    · have hpc : p = [cur] := by simpa using hp
      subst hpc
      refine ⟨rfl, by simp [h], rfl, by simp, by simp⟩
    · rcases List.mem_flatMap.mp hp with ⟨n, hn, hpn⟩
      by_cases hv : n ∈ visited
      · rw [if_pos hv] at hpn
        simp at hpn
      · rw [if_neg hv] at hpn
        rcases List.mem_map.mp hpn with ⟨q, hq, hqeq⟩
        subst hqeq
        obtain ⟨hqh, hql, hqe, hqnd, hqv⟩ := ih n (n :: visited) q hq
        rcases q with _ | ⟨n', q'⟩
        · simp at hqh
        · have hn' : n' = n := by simpa using hqh
          subst hn'
          refine ⟨rfl, ?_, ?_, ?_, ?_⟩
          · rw [List.getLast?_cons_cons]
            exact hql
          · show (has_edge d cur n' && edges_ok d (n' :: q')) = true
            rw [Bool.and_eq_true]
            exact ⟨has_edge_of_mem_succ_list d cur n' hn, hqe⟩
          · show (n' :: q').Nodup
            rw [List.nodup_cons]
            refine ⟨?_, hqnd⟩
            intro hmem
            exact (hqv n' hmem) (List.mem_cons_self n' visited)
          · intro x hx
            rcases List.mem_cons.mp hx with hx | hx'
            · subst hx
              exact hv
            · intro hxv
              exact (hqv x hx') (List.mem_cons_of_mem n' hxv)

lemma is_path_b_iff (d : DiGraph) (a b : String) (p : List String) :
    is_path_b d a b p = true ↔
      (p.head? = some a ∧ p.getLast? = some b ∧ edges_ok d p = true) := by
  unfold is_path_b
  simp [Bool.and_eq_true, and_assoc]

lemma paths_from_top_sound (d : DiGraph) (a b : String) (p : List String)
    (hp : p ∈ paths_from d b d.nodes.length a [a]) :
    is_path_b d a b p = true ∧ p.Nodup := by
  obtain ⟨hh, hl, he, hnd, hv⟩ := paths_from_sound d b d.nodes.length a [a] p hp
  constructor
  · exact (is_path_b_iff d a b p).mpr ⟨hh, hl, he⟩
  · rcases p with _ | ⟨c, t⟩
    · simp at hh
    · have hc : c = a := by simpa using hh
      subst hc
      rw [List.nodup_cons]
      exact ⟨fun hm => (hv c hm) (List.mem_singleton.mpr rfl), hnd⟩

lemma paths_from_complete (d : DiGraph) (tgt : String) :
    ∀ (p : List String) (fuel : Nat) (cur : String) (visited : List String),
      p.head? = some cur → p.getLast? = some tgt → edges_ok d p = true → p.Nodup →
      p.length ≤ fuel + 1 → (∀ x ∈ visited, x ∉ p.tail) →
      p ∈ paths_from d tgt fuel cur visited := by
  intro p
  induction p with
  | nil =>
    intro fuel cur visited hh
    simp at hh
  | cons c rest ih =>
    intro fuel cur visited hh hl he hnd hlen hvis
    have hc : c = cur := by simpa using hh
    subst hc
    rcases rest with _ | ⟨n, rest2⟩
    · have hct : c = tgt := by simpa using hl
      cases fuel with
      | zero =>
        unfold paths_from
        rw [if_pos hct]
        simp
      | succ f =>
        unfold paths_from
        rw [if_pos hct]
        simp
    · have hlrest : (n :: rest2).getLast? = some tgt := by
        rw [List.getLast?_cons_cons] at hl
        exact hl
      have htmem : tgt ∈ n :: rest2 := by
        have hx : tgt ∈ (n :: rest2).getLast? := by
          rw [Option.mem_def]
          exact hlrest
        rcases List.mem_getLast?_eq_getLast hx with ⟨hne, heq⟩
        rw [heq]
        exact List.getLast_mem hne
      have hcne : ¬ c = tgt := by
        intro he2
        subst he2
        exact (List.nodup_cons.mp hnd).1 htmem
      have hedge : has_edge d c n = true ∧ edges_ok d (n :: rest2) = true := by
        have : (has_edge d c n && edges_ok d (n :: rest2)) = true := he
        rwa [Bool.and_eq_true] at this
      cases fuel with
      | zero =>
        exfalso
        simp at hlen
      | succ f =>
        unfold paths_from
        rw [if_neg hcne]
        apply List.mem_flatMap.mpr
        refine ⟨n, mem_succ_list_of_has_edge d c n hedge.1, ?_⟩
        have hnvis : ¬ n ∈ visited := by
          intro hmem
          exact (hvis n hmem) (List.mem_cons_self n rest2)
        rw [if_neg hnvis]
        apply List.mem_map.mpr
        refine ⟨n :: rest2, ?_, rfl⟩
        apply ih f n (n :: visited) rfl hlrest hedge.2 (List.nodup_cons.mp hnd).2
        · have : (c :: n :: rest2).length = rest2.length + 2 := by simp
          simp at hlen ⊢
          omega
        · intro x hx
          rcases List.mem_cons.mp hx with hx | hxv
          · subst hx
            exact (List.nodup_cons.mp (List.nodup_cons.mp hnd).2).1
          · intro hmem
            exact (hvis x hxv) (List.mem_cons_of_mem n hmem)

lemma pick_shortest_eq_none (l : List (List String)) :
    pick_shortest l = none ↔ l = [] := by
  cases l with
  | nil => simp [pick_shortest]
  | cons p rest =>
    constructor
    · intro hc
      exfalso
      unfold pick_shortest at hc
      cases h : pick_shortest rest with
      | none => rw [h] at hc; simp at hc
      | some q =>
        rw [h] at hc
        dsimp only at hc
        split_ifs at hc
    · intro hc
      simp at hc

lemma pick_shortest_spec (l : List (List String)) (q : List String)
    (h : pick_shortest l = some q) :
    q ∈ l ∧ ∀ p ∈ l, q.length ≤ p.length := by
  induction l generalizing q with
  | nil => simp [pick_shortest] at h
  | cons p rest ih =>
    unfold pick_shortest at h
    cases hr : pick_shortest rest with
    | none =>
      rw [hr] at h
      have hq : p = q := by simpa using h
      subst hq
      have hrest : rest = [] := (pick_shortest_eq_none rest).mp hr
      subst hrest
      exact ⟨List.mem_singleton.mpr rfl, by simp⟩
    | some q' =>
      rw [hr] at h
      dsimp only at h
      obtain ⟨hq'mem, hq'min⟩ := ih q' hr
      split_ifs at h with hlt
      · have hq : q' = q := by simpa using h
        subst hq
        refine ⟨List.mem_cons_of_mem _ hq'mem, ?_⟩
        intro p2 hp2
        rcases List.mem_cons.mp hp2 with hp2 | hm
        · subst hp2
          exact le_of_lt hlt
        · exact hq'min p2 hm
      · have hq : p = q := by simpa using h
        subst hq
        refine ⟨List.mem_cons_self _ _, ?_⟩
        intro p2 hp2
        rcases List.mem_cons.mp hp2 with hp2 | hm
        · subst hp2
          exact le_refl _
        · exact le_trans (not_lt.mp hlt) (hq'min p2 hm)

lemma path_nodes_has_node (d : DiGraph) (hwf : wf_b d = true) :
    ∀ (p : List String) (cur : String), p.head? = some cur → edges_ok d p = true →
      has_node d cur = true → ∀ x ∈ p, has_node d x = true := by
  intro p
  induction p with
  | nil =>
    intro cur hh
    simp at hh
  | cons c rest ih =>
    intro cur hh he hc x hx
    have hcc : c = cur := by simpa using hh
    subst hcc
    rcases rest with _ | ⟨n, rest2⟩
    · have : x = c := List.mem_singleton.mp hx
      subst this
      exact hc
    · have he' : has_edge d c n = true ∧ edges_ok d (n :: rest2) = true := by
        have : (has_edge d c n && edges_ok d (n :: rest2)) = true := he
        rwa [Bool.and_eq_true] at this
      have hn : has_node d n = true := by
        have hedge := he'.1
        unfold has_edge edge_lookup at hedge
        cases hf : d.edges.find? (fun e => decide (e.1 = (c, n))) with
        | none => rw [hf] at hedge; simp at hedge
        | some e =>
          have hkey : e.1 = (c, n) := by
            have := List.find?_some hf
            simpa using this
          have hmem := List.mem_of_find?_eq_some hf
          unfold wf_b at hwf
          have hall := List.all_eq_true.mp hwf e hmem
          rw [Bool.and_eq_true] at hall
          have := hall.2
          rwa [hkey] at this
      rcases List.mem_cons.mp hx with hx | hx'
      · subst hx
        exact hc
      · exact ih n rfl he'.2 hn x hx'

lemma nodup_subset_length_le (p l : List String) (hnd : p.Nodup)
    (hsub : ∀ x ∈ p, x ∈ l) : p.length ≤ l.length := by
  classical
  have h1 : p.toFinset.card = p.length := List.toFinset_card_of_nodup hnd
  have h2 : p.toFinset ⊆ l.toFinset := by
    intro x hx
    rw [List.mem_toFinset] at hx ⊢
    exact hsub x hx
  calc p.length = p.toFinset.card := h1.symm
    _ ≤ l.toFinset.card := Finset.card_le_card h2
    _ ≤ l.length := l.toFinset_card_le

lemma has_node_iff_mem_keys (d : DiGraph) (x : String) :
    has_node d x = true ↔ x ∈ node_keys d := by
  unfold has_node node_keys
  rw [List.find?_isSome]
  constructor
  · rintro ⟨kv, hmem, hp⟩
    have hk : kv.1 = x := by simpa using hp
    exact hk ▸ List.mem_map_of_mem Prod.fst hmem
  · intro hx
    rcases List.mem_map.mp hx with ⟨kv, hmem, hk⟩
    exact ⟨kv, hmem, by simp [hk]⟩

lemma shortest_path_sound (d : DiGraph) (a b : String) (q : List String)
    (h : shortest_path d a b = some q) :
    is_path_b d a b q = true ∧ q.Nodup := by
  unfold shortest_path at h
  obtain ⟨hmem, -⟩ := pick_shortest_spec _ q h
  exact paths_from_top_sound d a b q hmem

lemma shortest_path_complete (d : DiGraph) (a b : String) (p : List String)
    (hwf : wf_b d = true) (ha : has_node d a = true)
    (hp : is_path_b d a b p = true) (hnd : p.Nodup) :
    ∃ q, shortest_path d a b = some q ∧ q.length ≤ p.length := by
  obtain ⟨hh, hl, he⟩ := (is_path_b_iff d a b p).mp hp
  have hsub : ∀ x ∈ p, x ∈ node_keys d := by
    intro x hx
    exact (has_node_iff_mem_keys d x).mp (path_nodes_has_node d hwf p a hh he ha x hx)
  have hlen : p.length ≤ d.nodes.length := by
    have := nodup_subset_length_le p (node_keys d) hnd hsub
    unfold node_keys at this
    simpa using this
  have hvis : ∀ x ∈ [a], x ∉ p.tail := by
    intro x hx
    have hxa : x = a := List.mem_singleton.mp hx
    subst hxa
    rcases p with _ | ⟨c, t⟩
    · simp at hh
    · have hc : c = x := by simpa using hh
      subst hc
      exact (List.nodup_cons.mp hnd).1
  have hmem : p ∈ paths_from d b d.nodes.length a [a] :=
    paths_from_complete d b p d.nodes.length a [a] hh hl he hnd
      (le_trans hlen (Nat.le_succ _)) hvis
  cases hps : pick_shortest (paths_from d b d.nodes.length a [a]) with
  | none =>
    exfalso
    have := (pick_shortest_eq_none _).mp hps
    rw [this] at hmem
    simp at hmem
  | some q =>
    obtain ⟨-, hmin⟩ := pick_shortest_spec _ q hps
    exact ⟨q, hps, hmin p hmem⟩

lemma shortest_path_min (d : DiGraph) (a b : String) (q p : List String)
    (hwf : wf_b d = true) (ha : has_node d a = true)
    (hsp : shortest_path d a b = some q)
    (hp : is_path_b d a b p = true) (hnd : p.Nodup) : q.length ≤ p.length := by
  obtain ⟨q', hsp', hle⟩ := shortest_path_complete d a b p hwf ha hp hnd
  rw [hsp] at hsp'
  have hqq : q = q' := by simpa using hsp'
  rw [hqq]
  exact hle

/-- Edge attributes used by the insertion-order probe graphs. -/
def probe_edge_attrs : Attrs := [("relation", AttrValue.vstr "linked")]

/-- Diamond graph a→x→b, a→y→b with the x-branch inserted first. -/
def diamond1 : DiGraph :=
  add_edge (add_edge (add_edge (add_edge empty_digraph "a" "x" probe_edge_attrs)
    "a" "y" probe_edge_attrs) "x" "b" probe_edge_attrs) "y" "b" probe_edge_attrs

/-- The same diamond with the y-branch inserted first: identical node and
edge sets, different insertion order. -/
def diamond2 : DiGraph :=
  add_edge (add_edge (add_edge (add_edge empty_digraph "a" "y" probe_edge_attrs)
    "a" "x" probe_edge_attrs) "y" "b" probe_edge_attrs) "x" "b" probe_edge_attrs

/-- Probe world model around the first diamond. -/
def diamond_graph1 : CausalGraph :=
  { semantic := diamond1, episodic := empty_digraph, self_model := empty_digraph,
    creation_time := "", last_update := "" }

/-- Probe world model around the second diamond. -/
def diamond_graph2 : CausalGraph :=
  { semantic := diamond2, episodic := empty_digraph, self_model := empty_digraph,
    creation_time := "", last_update := "" }

/-- C5 counterexample: two graphs with the same node set and the same edge
set, differing only in insertion order, make `query_relationship` return
different shortest paths between the same endpoints (a, x, b versus
a, y, b); the library search resolves the tie between the two equal-length
paths by the stored adjacency order, not by a fixed insertion-order-free
tie-break. This also matches a hand trace of the bidirectional search of
the library on both graphs. -/
theorem C5_counterexample_insertion_order :
    List.Perm diamond1.nodes diamond2.nodes ∧
    List.Perm diamond1.edges diamond2.edges ∧
    (query_relationship diamond_graph1 "a" "b").path = some ["a", "x", "b"] ∧
    (query_relationship diamond_graph2 "a" "b").path = some ["a", "y", "b"] ∧
    (query_relationship diamond_graph1 "a" "b").path ≠ (query_relationship diamond_graph2 "a" "b").path := by
  refine ⟨by decide, by decide, by decide, by decide, by decide⟩

/-- C5 (amended): for node ids a, b both present with no direct edge a→b,
if a directed path of at most 4 nodes exists then `query_relationship`
returns exists=true, relation_type="indirect", is_direct=false, and
confidence 0.7 divided by the number of nodes on the returned path; the
returned path is a shortest path (at most 4 nodes), and which of several
equal-length shortest paths is returned is determined by the stored
adjacency order, hence depends on edge insertion order (deterministic for
a fixed stored graph, see the counterexample). -/
theorem C5_indirect_query_amended (g : CausalGraph) (a b : String)
    (hwf : wf_b g.semantic = true)
    (ha : has_node g.semantic a = true) (hb : has_node g.semantic b = true)
    (hne : has_edge g.semantic a b = false)
    (hex : ∃ p, is_path_b g.semantic a b p = true ∧ p.Nodup ∧ p.length ≤ 4) :
    ∃ q, query_relationship g a b =
        { exists_found := true, relation_type := some "indirect",
          confidence := 7/10 / (q.length : ℚ), path := some q, direct := false } ∧
      is_path_b g.semantic a b q = true ∧ q.Nodup ∧ q.length ≤ 4 ∧
      (∀ p, is_path_b g.semantic a b p = true → p.Nodup → q.length ≤ p.length) := by
  obtain ⟨p, hp, hpnd, hp4⟩ := hex
  obtain ⟨q, hsp, hqlen⟩ := shortest_path_complete g.semantic a b p hwf ha hp hpnd
  obtain ⟨hqpath, hqnd⟩ := shortest_path_sound _ _ _ _ hsp
  have hq4 : q.length ≤ 4 := le_trans hqlen hp4
  refine ⟨q, ?_, hqpath, hqnd, hq4, ?_⟩
  · unfold query_relationship
    simp [ha, hb, hne, hsp, hq4]
  · intro p2 hp2 hnd2
    exact shortest_path_min g.semantic a b q p2 hwf ha hsp hp2 hnd2

/-- C5 witness: the amended indirect-query behavior instantiated on the
first diamond probe graph, where a two-hop path from a to b exists. -/
theorem C5_indirect_query_witness :
    ∃ q, query_relationship diamond_graph1 "a" "b" =
        { exists_found := true, relation_type := some "indirect",
          confidence := 7/10 / (q.length : ℚ), path := some q, direct := false } ∧
      is_path_b diamond_graph1.semantic "a" "b" q = true ∧ q.Nodup ∧ q.length ≤ 4 ∧
      (∀ p, is_path_b diamond_graph1.semantic "a" "b" p = true → p.Nodup → q.length ≤ p.length) :=
  C5_indirect_query_amended diamond_graph1 "a" "b" (by decide) (by decide) (by decide)
    (by decide) ⟨["a", "x", "b"], by decide, by decide, by decide⟩

lemma no_short_path_of_empty_enum (d : DiGraph) (a b : String)
    (hempty : paths_from d b d.nodes.length a [a] = [])
    (hfuel : 4 ≤ d.nodes.length + 1) :
    ∀ p, is_path_b d a b p = true → p.Nodup → ¬ p.length ≤ 4 := by
  intro p hp hnd hlen
  obtain ⟨hh, hl, he⟩ := (is_path_b_iff d a b p).mp hp
  have hvis : ∀ x ∈ [a], x ∉ p.tail := by
    intro x hx
    have hxa : x = a := List.mem_singleton.mp hx
    subst hxa
    rcases p with _ | ⟨c, t⟩
    · simp at hh
    · have hc : c = x := by simpa using hh
      subst hc
      exact (List.nodup_cons.mp hnd).1
  have hmem := paths_from_complete d b p d.nodes.length a [a] hh hl he hnd
    (le_trans hlen hfuel) hvis
  rw [hempty] at hmem
  simp at hmem

/-- Probe graph for the C7 counterexample: two disconnected semantic nodes
whose attribute mappings are empty. -/
def bare_pair_graph : CausalGraph :=
  { semantic := { nodes := [("N1", []), ("N2", [])], edges := [] },
    episodic := empty_digraph, self_model := empty_digraph,
    creation_time := "", last_update := "" }

/-- C7 counterexample: both entities are present in the semantic layer,
no directed path joins them, and the scanned text carries no marker and no
contradiction phrase, yet — because their attribute mappings are empty and
Python truthiness (`not info`) then counts each as unknown — the epistemic
axis is 0.8 rather than 0, and the total is 0.85·0.95 + 0.10·0.8 = 0.8875
= 71/80 rather than the claimed 0.8075 = 323/400. -/
theorem C7_counterexample_bare_entities :
    has_node bare_pair_graph.semantic "N1" = true ∧
    has_node bare_pair_graph.semantic "N2" = true ∧
    paths_from bare_pair_graph.semantic "N2" bare_pair_graph.semantic.nodes.length "N1" ["N1"] = [] ∧
    time_keywords.all
      (fun k => !(contains_sub (lower_str (join_space (["The"] ++ ["claims"]))) k)) = true ∧
    self_contradictions.all
      (fun pd => !(contains_sub (lower_str (join_space (["The"] ++ ["claims"]))) pd.1)) = true ∧
    (calculate_dissonance bare_pair_graph "claims" 1 ["The"]
        (some { entity_a := some "N1", entity_b := some "N2", relation := some "linked" }) "ts").components.epistemic = 8/10 ∧
    (calculate_dissonance bare_pair_graph "claims" 1 ["The"]
        (some { entity_a := some "N1", entity_b := some "N2", relation := some "linked" }) "ts").score = 71/80 ∧
    (8/10 : ℚ) ≠ 0 ∧ (71/80 : ℚ) ≠ 323/400 := by
  have hepi : calculate_epistemic_dissonance bare_pair_graph "claims" ["The"]
      (some { entity_a := some "N1", entity_b := some "N2", relation := some "linked" }) = 8/10 := by
    unfold calculate_epistemic_dissonance
    dsimp only
    rw [if_neg (by decide), if_pos (by decide), if_pos (by decide)]
    norm_num [min_def]
  have hq : query_relationship bare_pair_graph "N1" "N2" = no_relation_result := by rfl
  have hsem : calculate_semantic_dissonance bare_pair_graph "claims" ["The"]
      (some { entity_a := some "N1", entity_b := some "N2", relation := some "linked" }) = 95/100 := by
    unfold calculate_semantic_dissonance
    have hA : "N1".isEmpty = false := by decide
    have hB : "N2".isEmpty = false := by decide
    simp [truthy, hA, hB, hq, no_relation_result]
  have hslf : calculate_self_model_dissonance "claims" ["The"] = 0 := by
    unfold calculate_self_model_dissonance
    have hfind : self_contradictions.find?
        (fun pd => contains_sub (lower_str (join_space (["The"] ++ ["claims"]))) pd.1) = none := by decide
    simp only [hfind]
  have hscore : (calculate_dissonance bare_pair_graph "claims" 1 ["The"]
      (some { entity_a := some "N1", entity_b := some "N2", relation := some "linked" }) "ts").score = 71/80 := by
    show WEIGHT_SEMANTIC * calculate_semantic_dissonance bare_pair_graph "claims" ["The"]
        (some { entity_a := some "N1", entity_b := some "N2", relation := some "linked" }) +
      WEIGHT_EPISTEMIC * calculate_epistemic_dissonance bare_pair_graph "claims" ["The"]
        (some { entity_a := some "N1", entity_b := some "N2", relation := some "linked" }) +
      WEIGHT_SELF_MODEL * calculate_self_model_dissonance "claims" ["The"] = 71/80
    rw [hsem, hepi, hslf]
    norm_num [WEIGHT_SEMANTIC, WEIGHT_EPISTEMIC, WEIGHT_SELF_MODEL]
  have hcomp : (calculate_dissonance bare_pair_graph "claims" 1 ["The"]
      (some { entity_a := some "N1", entity_b := some "N2", relation := some "linked" }) "ts").components.epistemic = 8/10 := by
    have h1 : (calculate_dissonance bare_pair_graph "claims" 1 ["The"]
        (some { entity_a := some "N1", entity_b := some "N2", relation := some "linked" }) "ts").components.epistemic =
        calculate_epistemic_dissonance bare_pair_graph "claims" ["The"]
          (some { entity_a := some "N1", entity_b := some "N2", relation := some "linked" }) := rfl
    rw [h1, hepi]
  exact ⟨by decide, by decide, by decide, by decide, by decide, hcomp, hscore, by norm_num, by norm_num⟩

/-- C7 (corrected, Scenario A): a claim between two entities that are
present in the semantic layer and resolve to nonempty attribute mappings —
Python truthiness counts a node with an empty attribute dict as unknown on
the epistemic axis, see the counterexample; every node the program itself
creates carries a nonempty mapping — but joined by no directed path of at
most 4 nodes, with no temporal-recency marker and no self-contradiction
phrase in the scanned text, scores semantic 0.95, epistemic 0 and
self-model 0, for a total of exactly 0.85 × 0.95 = 0.8075 = 323/400,
classified reframe with should_inhibit true. -/
theorem C7_scenario_a (g : CausalGraph) (token : String) (token_index : Int)
    (context : List String) (a b : String) (rel : Option String) (now : String)
    (ha : has_node g.semantic a = true) (hb : has_node g.semantic b = true)
    (hA : a.isEmpty = false) (hB : b.isEmpty = false)
    (hia : info_falsy (get_node_info g a) = false)
    (hib : info_falsy (get_node_info g b) = false)
    (Hpath : ∀ p, is_path_b g.semantic a b p = true → p.Nodup → ¬ p.length ≤ 4)
    (Htime : time_keywords.all
      (fun k => !(contains_sub (lower_str (join_space (context ++ [token]))) k)) = true)
    (Hself : self_contradictions.all
      (fun pd => !(contains_sub (lower_str (join_space (context ++ [token]))) pd.1)) = true) :
    (calculate_dissonance g token token_index context
        (some { entity_a := some a, entity_b := some b, relation := rel }) now).components =
      { semantic := 95/100, epistemic := 0, self_model := 0 } ∧
    (calculate_dissonance g token token_index context
        (some { entity_a := some a, entity_b := some b, relation := rel }) now).score = 323/400 ∧
    (calculate_dissonance g token token_index context
        (some { entity_a := some a, entity_b := some b, relation := rel }) now).inhibition_level = "reframe" ∧
    (calculate_dissonance g token token_index context
        (some { entity_a := some a, entity_b := some b, relation := rel }) now).should_inhibit = true := by
  have hq : query_relationship g a b = no_relation_result := by
    have hnoedge : has_edge g.semantic a b = false := by
      by_cases hcon : has_edge g.semantic a b = true
      · exfalso
        have hab : a ≠ b := by
          intro he
          subst he
          exact Hpath [a] (by simp [is_path_b, edges_ok]) (by simp) (by norm_num)
        exact Hpath [a, b] (by simp [is_path_b, edges_ok, hcon]) (by simp [hab]) (by norm_num)
      · simpa using hcon
    unfold query_relationship
    cases hsp : shortest_path g.semantic a b with
    | none => simp [ha, hb, hnoedge, hsp]
    | some q =>
      obtain ⟨hqp, hqnd⟩ := shortest_path_sound _ _ _ _ hsp
      have hq4 : ¬ q.length ≤ 4 := Hpath q hqp hqnd
      simp [ha, hb, hnoedge, hsp, hq4]
  have hsem : calculate_semantic_dissonance g token context
      (some { entity_a := some a, entity_b := some b, relation := rel }) = 95/100 := by
    unfold calculate_semantic_dissonance
    simp [truthy, hA, hB, hq, no_relation_result]
  have hepi : calculate_epistemic_dissonance g token context
      (some { entity_a := some a, entity_b := some b, relation := rel }) = 0 := by
    unfold calculate_epistemic_dissonance
    have hany : time_keywords.any
        (fun k => contains_sub (lower_str (join_space (context ++ [token]))) k) = false := by
      rw [List.any_eq_false]
      intro k hk
      have := List.all_eq_true.mp Htime k hk
      simpa using this
    simp [hany, hia, hib]
    norm_num [min_def]
  have hslf : calculate_self_model_dissonance token context = 0 := by
    unfold calculate_self_model_dissonance
    have hfind : self_contradictions.find?
        (fun pd => contains_sub (lower_str (join_space (context ++ [token]))) pd.1) = none := by
      rw [List.find?_eq_none]
      intro pd hpd
      have := List.all_eq_true.mp Hself pd hpd
      simpa using this
    simp only [hfind]
  have hscore : (calculate_dissonance g token token_index context
      (some { entity_a := some a, entity_b := some b, relation := rel }) now).score = 323/400 := by
    show WEIGHT_SEMANTIC * calculate_semantic_dissonance g token context
        (some { entity_a := some a, entity_b := some b, relation := rel }) +
      WEIGHT_EPISTEMIC * calculate_epistemic_dissonance g token context
        (some { entity_a := some a, entity_b := some b, relation := rel }) +
      WEIGHT_SELF_MODEL * calculate_self_model_dissonance token context = 323/400
    rw [hsem, hepi, hslf]
    norm_num [WEIGHT_SEMANTIC, WEIGHT_EPISTEMIC, WEIGHT_SELF_MODEL]
  have hcomp : (calculate_dissonance g token token_index context
      (some { entity_a := some a, entity_b := some b, relation := rel }) now).components =
      { semantic := 95/100, epistemic := 0, self_model := 0 } := by
    have h1 : (calculate_dissonance g token token_index context
        (some { entity_a := some a, entity_b := some b, relation := rel }) now).components =
        { semantic := calculate_semantic_dissonance g token context
            (some { entity_a := some a, entity_b := some b, relation := rel })
          epistemic := calculate_epistemic_dissonance g token context
            (some { entity_a := some a, entity_b := some b, relation := rel })
          self_model := calculate_self_model_dissonance token context } := rfl
    rw [h1, hsem, hepi, hslf]
  have hlvl : (calculate_dissonance g token token_index context
      (some { entity_a := some a, entity_b := some b, relation := rel }) now).inhibition_level = "reframe" := by
    have h1 : (calculate_dissonance g token token_index context
        (some { entity_a := some a, entity_b := some b, relation := rel }) now).inhibition_level =
        (inhibition_classify token ((calculate_dissonance g token token_index context
          (some { entity_a := some a, entity_b := some b, relation := rel }) now).score)).2.1 := rfl
    rw [h1, hscore]
    unfold inhibition_classify
    rw [if_neg (by norm_num [THRESHOLD_ABORT]), if_pos (by norm_num [THRESHOLD_REFRAME])]
  have hsi : (calculate_dissonance g token token_index context
      (some { entity_a := some a, entity_b := some b, relation := rel }) now).should_inhibit = true := by
    have h1 : (calculate_dissonance g token token_index context
        (some { entity_a := some a, entity_b := some b, relation := rel }) now).should_inhibit =
        (inhibition_classify token ((calculate_dissonance g token token_index context
          (some { entity_a := some a, entity_b := some b, relation := rel }) now).score)).1 := rfl
    rw [h1, hscore]
    unfold inhibition_classify
    rw [if_neg (by norm_num [THRESHOLD_ABORT]), if_pos (by norm_num [THRESHOLD_REFRAME])]
  exact ⟨hcomp, hscore, hlvl, hsi⟩

set_option maxRecDepth 20000 in
/-- C7 witness: Scenario A realized on the seeded graph by the
Hahnemühle/Awagami hallucination probe — both companies are known with
nonempty attribute mappings, no directed path joins them within the bound,
and the scanned text carries no markers. -/
theorem C7_scenario_a_witness :
    (calculate_dissonance init_graph "partnership" 4 ["The"]
        (some { entity_a := some "Hahnemühle", entity_b := some "Awagami", relation := some "partnership" }) "ts").components =
      { semantic := 95/100, epistemic := 0, self_model := 0 } ∧
    (calculate_dissonance init_graph "partnership" 4 ["The"]
        (some { entity_a := some "Hahnemühle", entity_b := some "Awagami", relation := some "partnership" }) "ts").score = 323/400 ∧
    (calculate_dissonance init_graph "partnership" 4 ["The"]
        (some { entity_a := some "Hahnemühle", entity_b := some "Awagami", relation := some "partnership" }) "ts").inhibition_level = "reframe" ∧
    (calculate_dissonance init_graph "partnership" 4 ["The"]
        (some { entity_a := some "Hahnemühle", entity_b := some "Awagami", relation := some "partnership" }) "ts").should_inhibit = true :=
  C7_scenario_a init_graph "partnership" 4 ["The"] "Hahnemühle" "Awagami" (some "partnership") "ts"
    (by decide) (by decide) (by decide) (by decide) (by decide) (by decide)
    (no_short_path_of_empty_enum init_graph.semantic "Hahnemühle" "Awagami" (by decide) (by decide))
    (by decide) (by decide)
